import Mathlib

/-!
Stickman Fight: local simulation and network render loop

A shallow embedding of `frontend/src/game/GameCanvas.jsx` (the local
simulation: `update`, `enemyAI`, `handleHit`, `getFistPosition`, `resetRound`,
`onKeyDown`, `onKeyUp`) and of the render loop of
`frontend/src/game/NetGameCanvas.jsx`.

Numbers: JavaScript numbers are idealised as exact rationals (`ℚ`); integer
valued quantities that the code only ever compares with `===` or counts down
(`facing`, `actionTimer`) are integers (`ℤ`).  The library functions
`Math.cos`, `Math.sin` and `Math.hypot` are parameters of the model
(`JSMath`); `Math.round`, `Math.floor`, `Math.max` and `Math.min` are the
exact functions on `ℚ`.
-/

namespace StickmanFight

/-! ## Library functions -/

/-- The three `Math` functions of the host that have no exact rational
counterpart. -/
structure JSMath where
  cos : ℚ → ℚ
  sin : ℚ → ℚ
  hypot : ℚ → ℚ → ℚ

/-- The function `Math.round`: the nearest integer, halves rounded up. -/
def jsRound (q : ℚ) : ℚ := ((Int.floor (q + 1 / 2) : ℤ) : ℚ)

/-- The function `Math.floor`. -/
def jsFloor (q : ℚ) : ℚ := ((Int.floor q : ℤ) : ℚ)

/-! ## Entity model (GameCanvas.jsx, lines 22-56) -/

/-- The values of `action`: idle | run | jump | light | heavy | block. -/
inductive Action where
  | idle | run | jump | light | heavy | block
  deriving DecidableEq, Repr

/-- The fields of `player` / `enemy`; `_didHit` is absent (falsy) in the
object literals of the source and is `false` here. -/
structure Entity where
  x : ℚ
  y : ℚ
  vx : ℚ
  vy : ℚ
  onGround : Bool
  facing : ℤ
  action : Action
  actionTimer : ℤ
  hp : ℚ
  _didHit : Bool
  deriving DecidableEq

/-- The `keys` object. -/
structure Keys where
  ArrowLeft : Bool
  ArrowRight : Bool
  ArrowUp : Bool
  z : Bool
  x : Bool
  c : Bool
  r : Bool
  deriving DecidableEq

/-- The mutable variables closed over by the effect of `GameCanvas`:
`player`, `enemy`, `keys`, `gameOver`, `groundY` and `canvas.width`. -/
structure World where
  player : Entity
  enemy : Entity
  keys : Keys
  gameOver : Bool
  groundY : ℚ
  canvasWidth : ℚ
  deriving DecidableEq

def gravity : ℚ := 0.8
def friction : ℚ := 0.8
def speed : ℚ := 5
def jumpPower : ℚ := 17

/-- The test `action === "light" || action === "heavy"`. -/
def isAttack (a : Action) : Bool := a == Action.light || a == Action.heavy

/-- The test `action === "light" || action === "heavy" || action === "block"`. -/
def isLocked (a : Action) : Bool :=
  a == Action.light || a == Action.heavy || a == Action.block

/-! ## Combat resolver -/

/-- The function `getFistPosition(px, py, state)`: the pair `(fx, fy)`. -/
def getFistPosition (M : JSMath) (px py : ℚ) (state : Entity) : ℚ × ℚ :=
  let bodyLen : ℚ := 40
  let armLen : ℚ := 30
  let shoulderY : ℚ := py - bodyLen + 10
  let attackAngle : ℚ :=
    if isAttack state.action then (if state.facing = 1 then -0.2 else -2.94) else -1.2
  let fx := px + M.cos attackAngle * armLen
  let fy := shoulderY + M.sin attackAngle * armLen
  (fx, fy)

/-- The value of `dmg` when it is subtracted in `handleHit` (lines 338-346):
the base damage, reduced when the defender blocks facing the attacker. -/
def hitDamage (attacker : Entity) (attackerPosX : ℚ) (defender : Entity) (defenderPosX : ℚ) : ℚ :=
  let dmg : ℚ := if attacker.action = Action.light then 8 else 18
  let attackerOnRight : Bool := decide (attackerPosX > defenderPosX)
  let defenderFacingAttacker : Bool :=
    if attackerOnRight then decide (defender.facing = 1) else decide (defender.facing = -1)
  if defender.action = Action.block ∧ defenderFacingAttacker = true then jsRound (dmg * 0.4)
  else dmg

/-- The body of the branch `if (dist <= reach)` of `handleHit` (lines
337-355): damage, knockback and the hit flag. -/
def applyHit (attacker : Entity) (attackerPosX : ℚ) (defender : Entity) (defenderPosX : ℚ) :
    Entity × Entity :=
  let dmg : ℚ := hitDamage attacker attackerPosX defender defenderPosX
  let attackerOnRight : Bool := decide (attackerPosX > defenderPosX)
  let dir : ℚ := if attackerOnRight then 1 else -1
  ({ attacker with _didHit := true },
   { defender with
       hp := max 0 (defender.hp - dmg)
       vx := defender.vx + 2 * dir
       vy := if defender.onGround then -3 else defender.vy })

/-- The function `handleHit(attacker, attackerPosX, attackerPosY, defender,
defenderPosX, defenderPosY)`: the attacker and the defender after the call. -/
def handleHit (M : JSMath) (attacker : Entity) (attackerPosX attackerPosY : ℚ)
    (defender : Entity) (defenderPosX defenderPosY : ℚ) : Entity × Entity :=
  if !(isAttack attacker.action) then (attacker, defender)
  else if attacker._didHit then (attacker, defender)
  else
    let fist := getFistPosition M attackerPosX attackerPosY attacker
    let bodyLen : ℚ := 40
    let targetX : ℚ := defenderPosX
    let targetY : ℚ := defenderPosY - bodyLen / 2
    let dx := fist.1 - targetX
    let dy := fist.2 - targetY
    let dist := M.hypot dx dy
    let reach : ℚ := 20
    if dist ≤ reach then applyHit attacker attackerPosX defender defenderPosX
    else (attacker, defender)

/-! ## Round lifecycle -/

/-- The function `resetRound()`. -/
def resetRound (w : World) : World :=
  { w with
    player :=
      { x := jsFloor (w.canvasWidth / 2) - 120
        y := w.groundY
        vx := 0
        vy := 0
        onGround := true
        facing := 1
        action := Action.idle
        actionTimer := 0
        hp := 100
        _didHit := false }
    enemy :=
      { x := jsFloor (w.canvasWidth / 2) + 120
        y := w.groundY
        vx := 0
        vy := 0
        onGround := true
        facing := -1
        action := Action.idle
        actionTimer := 0
        hp := 100
        _didHit := false }
    gameOver := false }

/-- The state after the effect's set-up code has run for a window of the given
size: the object literals (lines 23-56), `resizeCanvas()` and the spawn
placement (lines 203-209). -/
def initWorld (innerWidth innerHeight : ℕ) : World :=
  let groundY : ℚ := jsFloor ((innerHeight : ℚ) * 0.8)
  { player :=
      { x := jsFloor ((innerWidth : ℚ) / 2) - 120
        y := groundY
        vx := 0
        vy := 0
        onGround := true
        facing := 1
        action := Action.idle
        actionTimer := 0
        hp := 100
        _didHit := false }
    enemy :=
      { x := jsFloor ((innerWidth : ℚ) / 2) + 120
        y := groundY
        vx := 0
        vy := 0
        onGround := true
        facing := -1
        action := Action.idle
        actionTimer := 0
        hp := 100
        _didHit := false }
    keys :=
      { ArrowLeft := false, ArrowRight := false, ArrowUp := false
        z := false, x := false, c := false, r := false }
    gameOver := false
    groundY := groundY
    canvasWidth := (innerWidth : ℚ) }

/-! ## One simulation tick (`update`, lines 212-301)

The body of `update` is split at its section comments; `update` is their
composition in source order. -/

/-- The section PLAYER MOVEMENT (lines 216-239), the jump included. -/
def playerMovement (w : World) : World :=
  let keys := w.keys
  let player := w.player
  let locked : Bool := isLocked player.action
  let player : Entity :=
    if !locked then
      if keys.ArrowLeft then
        { player with
            vx := -speed
            facing := -1
            action :=
              if player.onGround && player.action != Action.jump then Action.run
              else player.action }
      else if keys.ArrowRight then
        { player with
            vx := speed
            facing := 1
            action :=
              if player.onGround && player.action != Action.jump then Action.run
              else player.action }
      else
        { player with
            vx := player.vx * 0.8
            action :=
              if player.onGround && player.action == Action.run then Action.idle
              else player.action }
    else
      { player with vx := player.vx * 0.9 }
  let player : Entity :=
    if keys.ArrowUp && player.onGround && !locked then
      { player with vy := -jumpPower, onGround := false, action := Action.jump }
    else player
  { w with player := player }

/-- The function `enemyAI()`: face the player. -/
def enemyAI (w : World) : World :=
  let player := w.player
  let enemy := w.enemy
  let enemy := { enemy with facing := if player.x > enemy.x then 1 else -1 }
  { w with enemy := enemy }

/-- The section PHYSICS up to the velocity integration (lines 245-253). -/
def physics (w : World) : World :=
  let player := w.player
  let enemy := w.enemy
  let player := { player with vy := player.vy + gravity }
  let enemy := { enemy with vy := enemy.vy + gravity }
  let player := { player with x := player.x + player.vx, y := player.y + player.vy }
  let enemy := { enemy with x := enemy.x + enemy.vx, y := enemy.y + enemy.vy }
  { w with player := player, enemy := enemy }

/-- Ground collision (lines 255-267). -/
def groundCollision (w : World) : World :=
  let keys := w.keys
  let player := w.player
  let enemy := w.enemy
  let player : Entity :=
    if player.y > w.groundY then
      { player with
          y := w.groundY
          vy := 0
          onGround := true
          action :=
            if !(isLocked player.action) && !(keys.ArrowLeft || keys.ArrowRight) then Action.idle
            else player.action }
    else player
  let enemy : Entity :=
    if enemy.y > w.groundY then
      { enemy with
          y := w.groundY
          vy := 0
          onGround := true
          action := if !(isLocked enemy.action) then Action.idle else enemy.action }
    else enemy
  { w with player := player, enemy := enemy }

/-- The two clamps `if (x < leftBound) x = leftBound; if (x > rightBound) x =
rightBound;` applied in that order. -/
def clampX (leftBound rightBound x : ℚ) : ℚ :=
  let x := if x < leftBound then leftBound else x
  if x > rightBound then rightBound else x

/-- Stage boundaries (lines 269-275). -/
def boundaries (w : World) : World :=
  let player := w.player
  let enemy := w.enemy
  let leftBound : ℚ := 50
  let rightBound : ℚ := w.canvasWidth - 50
  let player := { player with x := clampX leftBound rightBound player.x }
  let enemy := { enemy with x := clampX leftBound rightBound enemy.x }
  { w with player := player, enemy := enemy }

/-- The first call of HIT DETECTION (line 279): player against enemy. -/
def playerHit (M : JSMath) (w : World) : World :=
  let player := w.player
  let enemy := w.enemy
  let r := handleHit M player player.x player.y enemy enemy.x enemy.y
  { w with player := r.1, enemy := r.2 }

/-- The second call of HIT DETECTION (line 281): enemy against player. -/
def enemyHit (M : JSMath) (w : World) : World :=
  let player := w.player
  let enemy := w.enemy
  let r := handleHit M enemy enemy.x enemy.y player player.x player.y
  { w with enemy := r.1, player := r.2 }

/-- The section ACTION TIMERS (lines 283-295). -/
def actionTimers (w : World) : World :=
  let keys := w.keys
  let player := w.player
  let enemy := w.enemy
  let player : Entity :=
    if player.actionTimer > 0 then
      let player := { player with actionTimer := player.actionTimer - 1 }
      if player.actionTimer = 0 ∧ player.action ≠ Action.jump then
        { player with
            action :=
              if player.onGround && (keys.ArrowLeft || keys.ArrowRight) then Action.run
              else Action.idle }
      else player
    else player
  let enemy : Entity :=
    if enemy.actionTimer > 0 then
      let enemy := { enemy with actionTimer := enemy.actionTimer - 1 }
      if enemy.actionTimer = 0 ∧ enemy.action ≠ Action.jump then
        { enemy with action := Action.idle }
      else enemy
    else enemy
  { w with player := player, enemy := enemy }

/-- The section KO CHECK (lines 297-300). -/
def koCheck (w : World) : World :=
  if w.player.hp ≤ 0 ∨ w.enemy.hp ≤ 0 then { w with gameOver := true } else w

/-- The world at the point where `update` reaches HIT DETECTION. -/
def beforeHits (w : World) : World :=
  boundaries (groundCollision (physics (enemyAI (playerMovement w))))

/-- The function `update()`. -/
def update (M : JSMath) (w : World) : World :=
  if w.gameOver then w
  else koCheck (actionTimers (enemyHit M (playerHit M (beforeHits w))))

/-! ## Keyboard handlers -/

/-- The assignment `if (k in keys) keys[k] = v` for the seven keys the object holds. -/
def setKey (keys : Keys) (k : String) (v : Bool) : Keys :=
  if k = "ArrowLeft" then { keys with ArrowLeft := v }
  else if k = "ArrowRight" then { keys with ArrowRight := v }
  else if k = "ArrowUp" then { keys with ArrowUp := v }
  else if k = "z" then { keys with z := v }
  else if k = "x" then { keys with x := v }
  else if k = "c" then { keys with c := v }
  else if k = "r" then { keys with r := v }
  else keys

/-- The handler `onKeyDown(e)` with `k = e.key`. -/
def onKeyDown (w : World) (k : String) : World :=
  let w := { w with keys := setKey w.keys k true }
  if w.gameOver ∧ k = "r" then resetRound w
  else
    let player := w.player
    let canAct : Bool := player.onGround && decide (player.actionTimer = 0) && !w.gameOver
    if k = "z" ∧ canAct = true then
      { w with player := { player with action := Action.light, actionTimer := 10, _didHit := false } }
    else if k = "x" ∧ canAct = true then
      { w with player := { player with action := Action.heavy, actionTimer := 18, _didHit := false } }
    else if k = "c" ∧ player.onGround = true ∧ player.action ≠ Action.block ∧ w.gameOver = false then
      { w with player := { player with action := Action.block, actionTimer := 14 } }
    else w

/-- The handler `onKeyUp(e)` with `k = e.key`. -/
def onKeyUp (w : World) (k : String) : World :=
  let w := { w with keys := setKey w.keys k false }
  let player := w.player
  if k = "c" ∧ player.action = Action.block then
    { w with
      player :=
        { player with
            actionTimer := 0
            action :=
              if player.onGround && (w.keys.ArrowLeft || w.keys.ArrowRight) then Action.run
              else Action.idle } }
  else w

/-! ## Executions of the local simulation -/

/-- What can happen to the local simulation: an animation frame (`update`), a
key going down or up, or a call of `resetRound`. -/
inductive Event where
  | tick
  | keyDown (k : String)
  | keyUp (k : String)
  | reset
  deriving DecidableEq

/-- One event applied to the world. -/
def step (M : JSMath) (w : World) : Event → World
  | Event.tick => update M w
  | Event.keyDown k => onKeyDown w k
  | Event.keyUp k => onKeyUp w k
  | Event.reset => resetRound w

/-- A sequence of events applied in order. -/
def run (M : JSMath) (w : World) : List Event → World
  | [] => w
  | e :: es => run M (step M w e) es

/-- The states the simulation can be in for a window of the given size. -/
def Reachable (M : JSMath) (innerWidth innerHeight : ℕ) (w : World) : Prop :=
  ∃ es : List Event, run M (initWorld innerWidth innerHeight) es = w

/-! ## A concrete `Math` for evaluating the model -/

/-- Integer square root by bisection on `[lo, lo + span]`. -/
def isqrtAux (n : ℕ) : ℕ → ℕ → ℕ → ℕ
  | 0, lo, _ => lo
  | fuel + 1, lo, hi =>
    if hi ≤ lo + 1 then lo
    else
      let mid := (lo + hi) / 2
      if mid * mid ≤ n then isqrtAux n fuel mid hi else isqrtAux n fuel lo mid

/-- The largest `k` with `k * k ≤ n` (for `n < 2 ^ 64`). -/
def isqrt (n : ℕ) : ℕ := isqrtAux n 64 0 (n + 1)

/-- A rational stand-in for the host library: `cos` and `sin` are given to six
decimals at the three arm angles the program uses (and by their second-order
Taylor polynomials elsewhere), `hypot` is the square root truncated to three
decimals. -/
def sampleMath : JSMath where
  cos a :=
    if a = -0.2 then 0.980067 else if a = -2.94 then -0.979749
    else if a = -1.2 then 0.362358 else 1 - a * a / 2
  sin a :=
    if a = -0.2 then -0.198669 else if a = -2.94 then -0.200230
    else if a = -1.2 then -0.932039 else a
  hypot a b := (isqrt (Int.toNat (Int.floor ((a * a + b * b) * 1000000))) : ℚ) / 1000

/-- A fighter standing at `x` on the ground line `y = 0`. -/
def standing (x : ℚ) (facing : ℤ) (action : Action) (actionTimer : ℤ) : Entity :=
  { x := x, y := 0, vx := 0, vy := 0, onGround := true, facing := facing
    action := action, actionTimer := actionTimer, hp := 100, _didHit := false }

/-! ## Predicates used in the statements -/

/-- The hit condition as the specification words it: an attack action, the
hit flag not set, and the fist point within distance 20 of the target point. -/
def HitCondition (M : JSMath) (attacker : Entity) (attackerX attackerY : ℚ)
    (defenderX defenderY : ℚ) : Prop :=
  (attacker.action = Action.light ∨ attacker.action = Action.heavy) ∧
  attacker._didHit = false ∧
  M.hypot
      ((attackerX + 30 * M.cos (if attacker.facing = 1 then -0.2 else -2.94)) - defenderX)
      ((attackerY - 30 + 30 * M.sin (if attacker.facing = 1 then -0.2 else -2.94))
        - (defenderY - 20)) ≤ 20

instance (M : JSMath) (attacker : Entity) (ax ay dx dy : ℚ) :
    Decidable (HitCondition M attacker ax ay dx dy) := by
  unfold HitCondition; infer_instance

/-- The defender faces the side the attacker is on. -/
def FacesAttacker (attackerX : ℚ) (defender : Entity) (defenderX : ℚ) : Prop :=
  if attackerX > defenderX then defender.facing = 1 else defender.facing = -1

/-! ## Hits along an execution -/

/-- The call of line 279, in the tick taken from `w`, changes the enemy (its
hp or its velocity). -/
def PlayerLands (M : JSMath) (w : World) : Prop :=
  w.gameOver = false ∧ (playerHit M (beforeHits w)).enemy ≠ (beforeHits w).enemy

/-- The call of line 281, in the tick taken from `w`, changes the player. -/
def EnemyLands (M : JSMath) (w : World) : Prop :=
  w.gameOver = false ∧
    (enemyHit M (playerHit M (beforeHits w))).player ≠ (playerHit M (beforeHits w)).player

instance (M : JSMath) (w : World) : Decidable (PlayerLands M w) := by
  unfold PlayerLands; infer_instance

instance (M : JSMath) (w : World) : Decidable (EnemyLands M w) := by
  unfold EnemyLands; infer_instance

/-- The number of ticks of the execution `es` from `w` in which the player's
`handleHit` call changes the enemy. -/
def playerHits (M : JSMath) : World → List Event → ℕ
  | _, [] => 0
  | w, e :: es =>
    (if e = Event.tick ∧ PlayerLands M w then 1 else 0) + playerHits M (step M w e) es

/-- The number of ticks of the execution `es` from `w` in which the enemy's
`handleHit` call changes the player. -/
def enemyHits (M : JSMath) : World → List Event → ℕ
  | _, [] => 0
  | w, e :: es =>
    (if e = Event.tick ∧ EnemyLands M w then 1 else 0) + enemyHits M (step M w e) es

/-- The events that clear the player's `_didHit`: `resetRound` (called
directly or by the key r when the round is over) and the start of a light or
heavy attack (key z or x when `canAct` holds). -/
def ClearsPlayerFlag (w : World) : Event → Prop
  | Event.tick => False
  | Event.keyDown k =>
    (w.gameOver = true ∧ k = "r") ∨
      ((k = "z" ∨ k = "x") ∧ w.player.onGround = true ∧ w.player.actionTimer = 0 ∧
        w.gameOver = false)
  | Event.keyUp _ => False
  | Event.reset => True

/-- The events that clear the enemy's `_didHit`: `resetRound` only. -/
def ClearsEnemyFlag (w : World) : Event → Prop
  | Event.tick => False
  | Event.keyDown k => w.gameOver = true ∧ k = "r"
  | Event.keyUp _ => False
  | Event.reset => True

/-- No event of the execution `es` from `w` satisfies `clears` in the state it
is applied to. -/
def NoClear (clears : World → Event → Prop) (M : JSMath) : World → List Event → Prop
  | _, [] => True
  | w, e :: es => ¬ clears w e ∧ NoClear clears M (step M w e) es

/-- A world in which the player, at `x = 100`, has just started a light attack
on an enemy standing at `x = 125`; the ground line is `y = 0` and the canvas is
800 wide. -/
def duel : World :=
  { player := standing 100 1 Action.light 10
    enemy := standing 125 (-1) Action.idle 0
    keys :=
      { ArrowLeft := false, ArrowRight := false, ArrowUp := false
        z := false, x := false, c := false, r := false }
    gameOver := false
    groundY := 0
    canvasWidth := 800 }

/-! ## Network render loop (NetGameCanvas.jsx, lines 152-247)

The canvas calls of a frame are recorded as data: the arguments of each
`drawHP` and `drawStick` call, and the message of the KO overlay when it is
shown. -/

/-- One entry of `game.players`; `hp` may be missing (`null` or `undefined`). -/
structure NetPlayer where
  x : ℚ
  y : ℚ
  facing : ℤ
  action : String
  hp : Option ℚ
  name : String
  deriving DecidableEq

/-- The `game` prop as `App` builds it from a "state" message. -/
structure GameSnapshot where
  players : List NetPlayer
  ko : Bool
  koReason : String
  timer : ℚ
  deriving DecidableEq

/-- The refs the render loop reads: `latestGameRef`, `prevStateRef`,
`lastUpdateRef` and `latestSlotRef`. -/
structure NetRefs where
  latestGame : Option GameSnapshot
  prevState : Option GameSnapshot
  lastUpdate : ℚ
  latestSlot : Option ℤ
  deriving DecidableEq

/-- The arguments of one call `drawStick(px, py, facing, action, name)`. -/
structure StickCall where
  px : ℚ
  py : ℚ
  facing : ℤ
  action : String
  name : String
  deriving DecidableEq

/-- The arguments of one call `drawHP(x, y, label, hp)`. -/
structure HPCall where
  x : ℚ
  y : ℚ
  label : String
  hp : Option ℚ
  deriving DecidableEq

/-- What one run of `loop` draws. -/
structure Frame where
  hpBars : List HPCall
  sticks : List StickCall
  overlay : Option String
  deriving DecidableEq

/-- The value `dt` of line 181: `Math.min((now - lastUpdateRef.current) / 50, 1)`. -/
def interpolationFactor (now lastUpdate : ℚ) : ℚ := min ((now - lastUpdate) / 50) 1

/-- The index `myIndex` of line 166. -/
def myIndex (currentSlot : Option ℤ) : ℕ := if currentSlot = some 2 then 1 else 0

/-- The index `enemyIndex` of line 167. -/
def enemyIndex (currentSlot : Option ℤ) : ℕ := if currentSlot = some 2 then 0 else 1

/-- The HP bars of lines 173-177. -/
def drawHPBars (canvasWidth : ℚ) (me enemy : Option NetPlayer) : List HPCall :=
  (match me with
    | some m => [{ x := 40, y := 40, label := "Player HP", hp := m.hp }]
    | none => []) ++
  (match enemy with
    | some e =>
      let barW : ℚ := 240
      [{ x := canvasWidth - 40 - barW, y := 40, label := "Enemy HP", hp := e.hp }]
    | none => [])

/-- The fallback branch of lines 196-200: every player at its raw position. -/
def drawRaw (cx gy : ℚ) (players : List NetPlayer) : List StickCall :=
  players.map fun p =>
    { px := cx + p.x, py := gy + p.y, facing := p.facing, action := p.action, name := p.name }

/-- The drawing of lines 183-201: interpolated when the previous snapshot has
as many players as the current one, raw otherwise. -/
def drawPlayers (cx gy dt : ℚ) (prevGame : Option GameSnapshot) (players : List NetPlayer) :
    List StickCall :=
  match prevGame with
  | some pg =>
    if h : players.length = pg.players.length then
      List.ofFn fun i : Fin players.length =>
        let oldP := pg.players.get (Fin.cast h i)
        let newP := players.get i
        let ix := oldP.x + (newP.x - oldP.x) * dt
        let iy := oldP.y + (newP.y - oldP.y) * dt
        let px := cx + ix
        let py := gy + iy
        { px := px, py := py, facing := newP.facing, action := newP.action, name := newP.name }
    else drawRaw cx gy players
  | none => drawRaw cx gy players

/-- The test `p?.hp != null && p.hp <= 0`. -/
def hpGone (p : Option NetPlayer) : Bool :=
  match p with
  | some q =>
    match q.hp with
    | some h => decide (h ≤ 0)
    | none => false
  | none => false

/-- The KO overlay of lines 218-246: its message when it is shown. -/
def koOverlay (currentGame : Option GameSnapshot) (me enemy : Option NetPlayer) :
    Option String :=
  let koFlag : Bool :=
    (match currentGame with
      | some g => g.ko
      | none => false) || hpGone me || hpGone enemy
  if koFlag then
    let msg : String :=
      if (match currentGame with
          | some g => decide (g.koReason = "timeout")
          | none => false) then "Time Up!"
      else if hpGone me then "You Lose"
      else if hpGone enemy then "You Win!"
      else "KO!"
    some msg
  else none

/-- One run of `loop` at time `now` on a canvas of the given size: the HP
bars, the sticks and the KO overlay (the timer and ping texts are not
recorded). -/
def loop (canvasWidth canvasHeight : ℕ) (refs : NetRefs) (now : ℚ) : Frame :=
  let currentGame := refs.latestGame
  let prevGame := refs.prevState
  let currentSlot := refs.latestSlot
  let gy : ℚ := jsFloor ((canvasHeight : ℚ) * 0.8)
  let cx : ℚ := (canvasWidth : ℚ) / 2
  let players : List NetPlayer :=
    match currentGame with
    | some g => g.players
    | none => []
  let me := players[myIndex currentSlot]?
  let enemy := players[enemyIndex currentSlot]?
  let dt := interpolationFactor now refs.lastUpdate
  { hpBars := drawHPBars (canvasWidth : ℚ) me enemy
    sticks := drawPlayers cx gy dt prevGame players
    overlay := koOverlay currentGame me enemy }

/-- The effect of lines 17-22, run at time `now` when a new `game` arrives. -/
def onSnapshot (refs : NetRefs) (game : GameSnapshot) (now : ℚ) : NetRefs :=
  { refs with prevState := refs.latestGame, latestGame := some game, lastUpdate := now }

/-- The player is present and its hp is a number that is at most 0. -/
def HpAtMostZero : Option NetPlayer → Prop
  | some q =>
    match q.hp with
    | some h => h ≤ 0
    | none => False
  | none => False

instance (p : Option NetPlayer) : Decidable (HpAtMostZero p) := by
  unfold HpAtMostZero
  cases p with
  | none => exact instDecidableFalse
  | some q =>
    cases hq : q.hp with
    | none => simp only [hq]; exact instDecidableFalse
    | some h => simp only [hq]; infer_instance

/-- Two players of a snapshot: one at the origin, one at `(100, -20)`. -/
def samplePlayers (x0 x1 : ℚ) (hp0 hp1 : ℚ) : List NetPlayer :=
  [{ x := x0, y := 0, facing := 1, action := "run", hp := some hp0, name := "Ann" },
   { x := x1, y := -20, facing := -1, action := "idle", hp := some hp1, name := "Bob" }]

/-! ## Snapshot arrival and the interpolated drawing, in the specification's words -/

/-- The sticks of an interpolated frame, player by player:
`pos = prevPos + (currPos - prevPos) * dt`, everything else from the current
snapshot. -/
def interpolatedSticks (cx gy dt : ℚ) (prev cur : List NetPlayer) : List StickCall :=
  List.zipWith
    (fun oldP newP =>
      { px := cx + (oldP.x + (newP.x - oldP.x) * dt)
        py := gy + (oldP.y + (newP.y - oldP.y) * dt)
        facing := newP.facing, action := newP.action, name := newP.name })
    prev cur

/-- The refs after the snapshots of `arrivals` (each with its arrival time)
have been delivered in order. -/
def deliver (refs : NetRefs) : List (GameSnapshot × ℚ) → NetRefs
  | [] => refs
  | (game, now) :: rest => deliver (onSnapshot refs game now) rest

/-- A snapshot with the given players, no knockout and 90 seconds left. -/
def sampleSnapshot (players : List NetPlayer) : GameSnapshot :=
  { players := players, ko := false, koReason := "", timer := 90 }

/-- The distance between the attacking fist and the defender's target point,
as `handleHit` measures it for an attacker in a light or heavy action. -/
def fistDistance (M : JSMath) (attacker : Entity) (attackerX attackerY : ℚ)
    (defenderX defenderY : ℚ) : ℚ :=
  M.hypot
    ((attackerX + 30 * M.cos (if attacker.facing = 1 then -0.2 else -2.94)) - defenderX)
    ((attackerY - 30 + 30 * M.sin (if attacker.facing = 1 then -0.2 else -2.94))
      - (defenderY - 20))

/-- A world like `duel` with the player idle and the enemy sliding left with
`vx = -2`, as it does after a hit. -/
def glide : World :=
  { duel with
    player := standing 100 1 Action.idle 0
    enemy := { standing 125 (-1) Action.idle 0 with vx := -2 } }

/-! ## Round state -/

/-- The KO overlay of the local `loop` (lines 417-432): its message when the
round is over. -/
def koOverlayLocal (w : World) : Option String :=
  if w.gameOver then
    let msg : String := if w.player.hp ≤ 0 then "You Lose" else "You Win!"
    some msg
  else none

/-- What holds of the timers, the actions and the player's hp in every state
the simulation reaches. -/
def RoundInv (w : World) : Prop :=
  (0 ≤ w.player.actionTimer ∧ w.player.actionTimer ≤ 18) ∧
  (isLocked w.player.action = true ↔ 0 < w.player.actionTimer) ∧
  (w.enemy.action = Action.idle ∧ w.enemy.actionTimer = 0) ∧
  w.player.hp = 100 ∧
  (w.gameOver = true → w.enemy.hp ≤ 0)

/-! ## The clock of the network canvas -/

/-- What happens to the mounted network canvas.  Each event reads the clock
`performance.now()` once (line 21 for an arrival, line 180 for a frame);
`elapsed` is the time since the previous reading, never negative because the
clock is monotonic. -/
inductive NetEvent where
  | snapshot (elapsed : NNRat) (game : GameSnapshot)
  | frame (elapsed : NNRat)

/-- The refs together with the latest reading of `performance.now()`. -/
structure NetState where
  clock : ℚ
  refs : NetRefs

/-- The component when it has rendered at clock reading `t0`: the refs as
`useRef` initialises them (lines 8-14). -/
def netInit (t0 : ℚ) (game : GameSnapshot) (slot : Option ℤ) : NetState :=
  { clock := t0
    refs := { latestGame := some game, prevState := none, lastUpdate := t0, latestSlot := slot } }

/-- One event applied to the network canvas: an arrival runs the effect of
lines 17-22 at the new clock reading, a frame only reads the clock. -/
def netStep (s : NetState) : NetEvent → NetState
  | NetEvent.snapshot elapsed game =>
    let now : ℚ := s.clock + (elapsed : ℚ)
    { clock := now, refs := onSnapshot s.refs game now }
  | NetEvent.frame elapsed =>
    let now : ℚ := s.clock + (elapsed : ℚ)
    { s with clock := now }

/-- The values of `dt` computed at line 181 by the frames of an execution, in
order. -/
def frameFactors : NetState → List NetEvent → List ℚ
  | _, [] => []
  | s, NetEvent.snapshot elapsed game :: es =>
    frameFactors (netStep s (NetEvent.snapshot elapsed game)) es
  | s, NetEvent.frame elapsed :: es =>
    interpolationFactor (s.clock + (elapsed : ℚ)) s.refs.lastUpdate
      :: frameFactors (netStep s (NetEvent.frame elapsed)) es

/-! ## Hit registration (C1) -/

theorem isAttack_iff (a : Action) :
    isAttack a = true ↔ (a = Action.light ∨ a = Action.heavy) := by
  cases a <;> simp [isAttack]

theorem isLocked_iff (a : Action) :
    isLocked a = true ↔ (a = Action.light ∨ a = Action.heavy ∨ a = Action.block) := by
  cases a <;> simp [isLocked]

theorem handleHit_of_cond (M : JSMath) (a : Entity) (ax ay : ℚ) (d : Entity) (dx dy : ℚ)
    (h : HitCondition M a ax ay dx dy) :
    handleHit M a ax ay d dx dy = applyHit a ax d dx := by
  obtain ⟨hact, hflag, hdist⟩ := h
  have hatt : isAttack a.action = true := (isAttack_iff _).2 hact
  have hdist2 : M.hypot (ax + M.cos (if a.facing = 1 then -0.2 else -2.94) * 30 - dx)
      (ay - 40 + 10 + M.sin (if a.facing = 1 then -0.2 else -2.94) * 30 - (dy - 40 / 2)) ≤ 20 := by
    have e1 : ax + M.cos (if a.facing = 1 then -0.2 else -2.94) * 30 - dx
        = (ax + 30 * M.cos (if a.facing = 1 then -0.2 else -2.94)) - dx := by ring
    have e2 : ay - 40 + 10 + M.sin (if a.facing = 1 then -0.2 else -2.94) * 30 - (dy - 40 / 2)
        = (ay - 30 + 30 * M.sin (if a.facing = 1 then -0.2 else -2.94)) - (dy - 20) := by ring
    rw [e1, e2]; exact hdist
  simp only [handleHit, getFistPosition, hatt, hflag, Bool.not_true, Bool.false_eq_true,
    if_false, if_true, hdist2]

theorem handleHit_of_not_cond (M : JSMath) (a : Entity) (ax ay : ℚ) (d : Entity) (dx dy : ℚ)
    (h : ¬ HitCondition M a ax ay dx dy) :
    handleHit M a ax ay d dx dy = (a, d) := by
  unfold handleHit
  by_cases hatt : isAttack a.action = true
  · by_cases hflag : a._didHit = true
    · simp [hatt, hflag]
    · have hflag2 : a._didHit = false := by simpa using hflag
      simp only [hatt, hflag2, Bool.not_true, Bool.false_eq_true, if_false]
      split
      · rename_i hd
        exfalso
        apply h
        refine ⟨(isAttack_iff _).1 hatt, hflag2, ?_⟩
        simp only [getFistPosition, hatt, if_true] at hd
        have e1 : ax + M.cos (if a.facing = 1 then -0.2 else -2.94) * 30 - dx
            = (ax + 30 * M.cos (if a.facing = 1 then -0.2 else -2.94)) - dx := by ring
        have e2 : ay - 40 + 10 + M.sin (if a.facing = 1 then -0.2 else -2.94) * 30 - (dy - 40 / 2)
            = (ay - 30 + 30 * M.sin (if a.facing = 1 then -0.2 else -2.94)) - (dy - 20) := by ring
        rw [e1, e2] at hd; exact hd
      · rfl
  · simp [hatt]

theorem applyHit_vx_ne (a : Entity) (ax : ℚ) (d : Entity) (dx : ℚ) :
    (applyHit a ax d dx).2.vx ≠ d.vx := by
  simp only [applyHit]
  split <;> intro h <;> linarith

theorem applyHit_ne (a : Entity) (ax : ℚ) (d : Entity) (dx : ℚ) :
    applyHit a ax d dx ≠ (a, d) := by
  intro h
  exact applyHit_vx_ne a ax d dx (by rw [h])

/-- C1: `handleHit` registers a hit (its result is the hit branch: damage,
knockback, flag set) exactly when the attacker's action is light or heavy, its
`_didHit` flag is not set and the distance between the fist point and the
defender's target point is at most 20; in every other case both entities are
returned unchanged.  The hit branch sets the attacker's flag, lowers the
defender's hp to `max(0, hp - dmg)` and always moves the defender's horizontal
velocity. -/
theorem handleHit_registers_iff (M : JSMath) (attacker : Entity) (attackerX attackerY : ℚ)
    (defender : Entity) (defenderX defenderY : ℚ) :
    (handleHit M attacker attackerX attackerY defender defenderX defenderY
        = applyHit attacker attackerX defender defenderX
      ↔ HitCondition M attacker attackerX attackerY defenderX defenderY) ∧
    (¬ HitCondition M attacker attackerX attackerY defenderX defenderY →
      handleHit M attacker attackerX attackerY defender defenderX defenderY
        = (attacker, defender)) ∧
    (applyHit attacker attackerX defender defenderX).1 = { attacker with _didHit := true } ∧
    (applyHit attacker attackerX defender defenderX).2.hp
      = max 0 (defender.hp - hitDamage attacker attackerX defender defenderX) ∧
    (applyHit attacker attackerX defender defenderX).2.vx ≠ defender.vx := by
  refine ⟨⟨fun h => ?_, handleHit_of_cond M _ _ _ _ _ _⟩, handleHit_of_not_cond M _ _ _ _ _ _,
    rfl, rfl, applyHit_vx_ne _ _ _ _⟩
  by_contra hc
  rw [handleHit_of_not_cond M _ _ _ _ _ _ hc] at h
  exact applyHit_ne _ _ _ _ h.symm

theorem sample_in_reach :
    HitCondition sampleMath (standing 100 1 Action.light 10) 100 0 125 0 := by
  refine ⟨Or.inl rfl, rfl, ?_⟩
  norm_num [sampleMath, standing]
  have h : isqrt (Int.toNat 274101526) = 16556 := by decide
  rw [h]; norm_num

/-- C1 at concrete inputs: a light attack from `x = 100` reaches a defender at
`x = 125` and does not reach one at `x = 160`. -/
theorem handleHit_registers_iff_witness :
    handleHit sampleMath (standing 100 1 Action.light 10) 100 0
        (standing 125 (-1) Action.idle 0) 125 0
      = applyHit (standing 100 1 Action.light 10) 100 (standing 125 (-1) Action.idle 0) 125 ∧
    handleHit sampleMath (standing 100 1 Action.idle 0) 100 0
        (standing 125 (-1) Action.idle 0) 125 0
      = (standing 100 1 Action.idle 0, standing 125 (-1) Action.idle 0) :=
  ⟨(handleHit_registers_iff sampleMath _ 100 0 _ 125 0).1.2 sample_in_reach,
   (handleHit_registers_iff sampleMath _ 100 0 _ 125 0).2.1
     (fun h => by rcases h.1 with h1 | h1 <;> exact absurd h1 (by decide))⟩

/-! ## Damage, mitigation and knockback (C3, C4, C5) -/

theorem jsRound_light : jsRound (8 * 0.4) = 3 := by
  have h : Int.floor ((8 : ℚ) * 0.4 + 1 / 2) = 3 := by
    rw [Int.floor_eq_iff]; norm_num
  unfold jsRound; rw [h]; norm_num

theorem jsRound_heavy : jsRound (18 * 0.4) = 7 := by
  have h : Int.floor ((18 : ℚ) * 0.4 + 1 / 2) = 7 := by
    rw [Int.floor_eq_iff]; norm_num
  unfold jsRound; rw [h]; norm_num

theorem hitDamage_mitigated (a : Entity) (ax : ℚ) (d : Entity) (dx : ℚ)
    (h : d.action = Action.block ∧ FacesAttacker ax d dx) :
    hitDamage a ax d dx = if a.action = Action.light then 3 else 7 := by
  obtain ⟨hb, hf⟩ := h
  unfold FacesAttacker at hf
  unfold hitDamage
  by_cases hr : ax > dx
  · simp only [hr, if_true] at hf
    by_cases hl : a.action = Action.light <;> simp [hr, hf, hb, hl, jsRound_light, jsRound_heavy]
  · simp only [hr, if_false] at hf
    by_cases hl : a.action = Action.light <;> simp [hr, hf, hb, hl, jsRound_light, jsRound_heavy]

theorem hitDamage_full (a : Entity) (ax : ℚ) (d : Entity) (dx : ℚ)
    (h : ¬ (d.action = Action.block ∧ FacesAttacker ax d dx)) :
    hitDamage a ax d dx = if a.action = Action.light then 8 else 18 := by
  unfold FacesAttacker at h
  unfold hitDamage
  by_cases hr : ax > dx
  · simp only [hr, if_true] at h
    simp only [hr, decide_True, if_true, decide_eq_true_eq]
    rw [if_neg h]
  · simp only [hr, if_false] at h
    simp only [hr, decide_False, Bool.false_eq_true, if_false, decide_eq_true_eq]
    rw [if_neg h]

theorem hitDamage_nonneg (a : Entity) (ax : ℚ) (d : Entity) (dx : ℚ) :
    0 ≤ hitDamage a ax d dx := by
  by_cases h : d.action = Action.block ∧ FacesAttacker ax d dx
  · rw [hitDamage_mitigated a ax d dx h]; split <;> norm_num
  · rw [hitDamage_full a ax d dx h]; split <;> norm_num

theorem handleHit_eq_ite (M : JSMath) (a : Entity) (ax ay : ℚ) (d : Entity) (dx dy : ℚ) :
    handleHit M a ax ay d dx dy
      = if HitCondition M a ax ay dx dy then applyHit a ax d dx else (a, d) := by
  by_cases h : HitCondition M a ax ay dx dy
  · rw [if_pos h, handleHit_of_cond M a ax ay d dx dy h]
  · rw [if_neg h, handleHit_of_not_cond M a ax ay d dx dy h]

theorem handleHit_fst (M : JSMath) (a : Entity) (ax ay : ℚ) (d : Entity) (dx dy : ℚ) :
    (handleHit M a ax ay d dx dy).1
      = if HitCondition M a ax ay dx dy then { a with _didHit := true } else a := by
  rw [handleHit_eq_ite]; split <;> rfl

theorem handleHit_snd (M : JSMath) (a : Entity) (ax ay : ℚ) (d : Entity) (dx dy : ℚ) :
    (handleHit M a ax ay d dx dy).2
      = if HitCondition M a ax ay dx dy then (applyHit a ax d dx).2 else d := by
  rw [handleHit_eq_ite]; split <;> rfl

theorem handleHit_flag_set (M : JSMath) (a : Entity) (ax ay : ℚ) (d : Entity) (dx dy : ℚ)
    (h : a._didHit = true) : handleHit M a ax ay d dx dy = (a, d) :=
  handleHit_of_not_cond M a ax ay d dx dy (fun hc => by rw [hc.2.1] at h; exact absurd h (by decide))

theorem handleHit_hp (M : JSMath) (a : Entity) (ax ay : ℚ) (d : Entity) (dx dy : ℚ)
    (h0 : 0 ≤ d.hp) (h100 : d.hp ≤ 100) :
    (handleHit M a ax ay d dx dy).2.hp ≤ d.hp ∧ 0 ≤ (handleHit M a ax ay d dx dy).2.hp ∧
      (handleHit M a ax ay d dx dy).2.hp ≤ 100 := by
  rw [handleHit_snd]
  split
  · have hd := hitDamage_nonneg a ax d dx
    have e : (applyHit a ax d dx).2.hp = max 0 (d.hp - hitDamage a ax d dx) := rfl
    rw [e]
    refine ⟨max_le h0 (by linarith), le_max_left _ _, max_le (by norm_num) (by linarith)⟩
  · exact ⟨le_refl _, h0, h100⟩

/-- C3: when `handleHit` registers a hit, the defender's hp becomes
`max(0, hp - dmg)` where `dmg` is the mitigated value `round(base * 0.4)` (3 for
light, 7 for heavy) exactly when the defender blocks and faces the attacker's
side, and the full base damage (8 for light, 18 for heavy) in every other
case; when the defender has at least `dmg` hp, exactly `dmg` is subtracted. -/
theorem handleHit_damage (M : JSMath) (attacker : Entity) (attackerX attackerY : ℚ)
    (defender : Entity) (defenderX defenderY : ℚ)
    (h : HitCondition M attacker attackerX attackerY defenderX defenderY) :
    (handleHit M attacker attackerX attackerY defender defenderX defenderY).2.hp
      = max 0 (defender.hp - hitDamage attacker attackerX defender defenderX) ∧
    (hitDamage attacker attackerX defender defenderX
        = jsRound ((if attacker.action = Action.light then 8 else 18) * 0.4)
      ↔ defender.action = Action.block ∧ FacesAttacker attackerX defender defenderX) ∧
    (defender.action = Action.block ∧ FacesAttacker attackerX defender defenderX →
      hitDamage attacker attackerX defender defenderX
        = if attacker.action = Action.light then 3 else 7) ∧
    (¬ (defender.action = Action.block ∧ FacesAttacker attackerX defender defenderX) →
      hitDamage attacker attackerX defender defenderX
        = if attacker.action = Action.light then 8 else 18) ∧
    (hitDamage attacker attackerX defender defenderX ≤ defender.hp →
      defender.hp - (handleHit M attacker attackerX attackerY defender defenderX defenderY).2.hp
        = hitDamage attacker attackerX defender defenderX) := by
  have e : (handleHit M attacker attackerX attackerY defender defenderX defenderY).2.hp
      = max 0 (defender.hp - hitDamage attacker attackerX defender defenderX) := by
    rw [handleHit_of_cond M _ _ _ _ _ _ h]; rfl
  refine ⟨e, ⟨fun hm => ?_, fun hb => ?_⟩, hitDamage_mitigated _ _ _ _, hitDamage_full _ _ _ _,
    fun hle => ?_⟩
  · by_contra hb
    rw [hitDamage_full _ _ _ _ hb] at hm
    by_cases hl : attacker.action = Action.light
    · rw [if_pos hl, jsRound_light] at hm; norm_num at hm
    · rw [if_neg hl, jsRound_heavy] at hm; norm_num at hm
  · rw [hitDamage_mitigated _ _ _ _ hb]
    by_cases hl : attacker.action = Action.light
    · rw [if_pos hl, if_pos hl, jsRound_light]
    · rw [if_neg hl, if_neg hl, jsRound_heavy]
  · rw [e, max_eq_right (by linarith)]; ring

theorem sample_block_in_reach :
    HitCondition sampleMath (standing 100 1 Action.heavy 18) 100 0 125 0 := by
  refine ⟨Or.inr rfl, rfl, ?_⟩
  norm_num [sampleMath, standing]
  have h : isqrt (Int.toNat 274101526) = 16556 := by decide
  rw [h]; norm_num

/-- C3 at a concrete input: a heavy attack from `x = 100` on a defender at
`x = 125` who blocks facing left takes 7 hp, leaving 93. -/
theorem handleHit_damage_witness :
    (handleHit sampleMath (standing 100 1 Action.heavy 18) 100 0
        (standing 125 (-1) Action.block 14) 125 0).2.hp = 93 := by
  have h := handleHit_damage sampleMath (standing 100 1 Action.heavy 18) 100 0
    (standing 125 (-1) Action.block 14) 125 0 sample_block_in_reach
  have hb : (standing 125 (-1) Action.block 14).action = Action.block ∧
      FacesAttacker 100 (standing 125 (-1) Action.block 14) 125 := by
    refine ⟨rfl, ?_⟩
    unfold FacesAttacker
    rw [if_neg (by norm_num)]; rfl
  rw [h.1, h.2.2.1 hb]
  simp only [standing]
  rw [if_neg (by decide)]
  norm_num

/-- C5 on the code: a registered hit changes the defender's horizontal
velocity by `+2` when the attacker is on the defender's right and by `-2`
otherwise, that is toward the attacker, not away from it.  With the attacker at
`x = 100` and the defender at rest at `x = 125`, the defender's `vx` becomes
`-2` and its `vy` becomes `-3`. -/
theorem handleHit_knockback_toward_attacker :
    (handleHit sampleMath (standing 100 1 Action.light 10) 100 0
        (standing 125 (-1) Action.idle 0) 125 0).2.vx = -2 ∧
    (handleHit sampleMath (standing 100 1 Action.light 10) 100 0
        (standing 125 (-1) Action.idle 0) 125 0).2.vy = -3 ∧
    (standing 100 1 Action.light 10).x < (standing 125 (-1) Action.idle 0).x := by
  rw [handleHit_of_cond sampleMath _ _ _ _ _ _ sample_in_reach]
  norm_num [applyHit, standing]

/-! ## What the stages of a tick leave alone -/

@[simp] theorem playerMovement_gameOver (w : World) :
    (playerMovement w).gameOver = w.gameOver := rfl

@[simp] theorem playerMovement_keys (w : World) :
    (playerMovement w).keys = w.keys := rfl

@[simp] theorem playerMovement_groundY (w : World) :
    (playerMovement w).groundY = w.groundY := rfl

@[simp] theorem playerMovement_canvasWidth (w : World) :
    (playerMovement w).canvasWidth = w.canvasWidth := rfl

@[simp] theorem enemyAI_gameOver (w : World) :
    (enemyAI w).gameOver = w.gameOver := rfl

@[simp] theorem enemyAI_keys (w : World) :
    (enemyAI w).keys = w.keys := rfl

@[simp] theorem enemyAI_groundY (w : World) :
    (enemyAI w).groundY = w.groundY := rfl

@[simp] theorem enemyAI_canvasWidth (w : World) :
    (enemyAI w).canvasWidth = w.canvasWidth := rfl

@[simp] theorem physics_gameOver (w : World) :
    (physics w).gameOver = w.gameOver := rfl

@[simp] theorem physics_keys (w : World) :
    (physics w).keys = w.keys := rfl

@[simp] theorem physics_groundY (w : World) :
    (physics w).groundY = w.groundY := rfl

@[simp] theorem physics_canvasWidth (w : World) :
    (physics w).canvasWidth = w.canvasWidth := rfl

@[simp] theorem groundCollision_gameOver (w : World) :
    (groundCollision w).gameOver = w.gameOver := rfl

@[simp] theorem groundCollision_keys (w : World) :
    (groundCollision w).keys = w.keys := rfl

@[simp] theorem groundCollision_groundY (w : World) :
    (groundCollision w).groundY = w.groundY := rfl

@[simp] theorem groundCollision_canvasWidth (w : World) :
    (groundCollision w).canvasWidth = w.canvasWidth := rfl

@[simp] theorem boundaries_gameOver (w : World) :
    (boundaries w).gameOver = w.gameOver := rfl

@[simp] theorem boundaries_keys (w : World) :
    (boundaries w).keys = w.keys := rfl

@[simp] theorem boundaries_groundY (w : World) :
    (boundaries w).groundY = w.groundY := rfl

@[simp] theorem boundaries_canvasWidth (w : World) :
    (boundaries w).canvasWidth = w.canvasWidth := rfl

@[simp] theorem playerMovement_enemy (w : World) :
    (playerMovement w).enemy = w.enemy := rfl

@[simp] theorem enemyAI_player (w : World) :
    (enemyAI w).player = w.player := rfl

@[simp] theorem enemyAI_enemy_didHit (w : World) :
    (enemyAI w).enemy._didHit = w.enemy._didHit := rfl

@[simp] theorem enemyAI_enemy_hp (w : World) :
    (enemyAI w).enemy.hp = w.enemy.hp := rfl

@[simp] theorem enemyAI_enemy_actionTimer (w : World) :
    (enemyAI w).enemy.actionTimer = w.enemy.actionTimer := rfl

@[simp] theorem enemyAI_enemy_action (w : World) :
    (enemyAI w).enemy.action = w.enemy.action := rfl

@[simp] theorem enemyAI_enemy_onGround (w : World) :
    (enemyAI w).enemy.onGround = w.enemy.onGround := rfl

@[simp] theorem physics_player_didHit (w : World) :
    (physics w).player._didHit = w.player._didHit := rfl

@[simp] theorem physics_player_hp (w : World) :
    (physics w).player.hp = w.player.hp := rfl

@[simp] theorem physics_player_actionTimer (w : World) :
    (physics w).player.actionTimer = w.player.actionTimer := rfl

@[simp] theorem physics_player_action (w : World) :
    (physics w).player.action = w.player.action := rfl

@[simp] theorem physics_player_onGround (w : World) :
    (physics w).player.onGround = w.player.onGround := rfl

@[simp] theorem physics_enemy_didHit (w : World) :
    (physics w).enemy._didHit = w.enemy._didHit := rfl

@[simp] theorem physics_enemy_hp (w : World) :
    (physics w).enemy.hp = w.enemy.hp := rfl

@[simp] theorem physics_enemy_actionTimer (w : World) :
    (physics w).enemy.actionTimer = w.enemy.actionTimer := rfl

@[simp] theorem physics_enemy_action (w : World) :
    (physics w).enemy.action = w.enemy.action := rfl

@[simp] theorem physics_enemy_onGround (w : World) :
    (physics w).enemy.onGround = w.enemy.onGround := rfl

@[simp] theorem boundaries_player_didHit (w : World) :
    (boundaries w).player._didHit = w.player._didHit := rfl

@[simp] theorem boundaries_player_hp (w : World) :
    (boundaries w).player.hp = w.player.hp := rfl

@[simp] theorem boundaries_player_actionTimer (w : World) :
    (boundaries w).player.actionTimer = w.player.actionTimer := rfl

@[simp] theorem boundaries_player_action (w : World) :
    (boundaries w).player.action = w.player.action := rfl

@[simp] theorem boundaries_player_onGround (w : World) :
    (boundaries w).player.onGround = w.player.onGround := rfl

@[simp] theorem boundaries_enemy_didHit (w : World) :
    (boundaries w).enemy._didHit = w.enemy._didHit := rfl

@[simp] theorem boundaries_enemy_hp (w : World) :
    (boundaries w).enemy.hp = w.enemy.hp := rfl

@[simp] theorem boundaries_enemy_actionTimer (w : World) :
    (boundaries w).enemy.actionTimer = w.enemy.actionTimer := rfl

@[simp] theorem boundaries_enemy_action (w : World) :
    (boundaries w).enemy.action = w.enemy.action := rfl

@[simp] theorem boundaries_enemy_onGround (w : World) :
    (boundaries w).enemy.onGround = w.enemy.onGround := rfl

@[simp] theorem playerMovement_player_didHit (w : World) :
    (playerMovement w).player._didHit = w.player._didHit := by
  simp only [playerMovement]
  split_ifs <;> rfl

@[simp] theorem playerMovement_player_hp (w : World) :
    (playerMovement w).player.hp = w.player.hp := by
  simp only [playerMovement]
  split_ifs <;> rfl

@[simp] theorem playerMovement_player_actionTimer (w : World) :
    (playerMovement w).player.actionTimer = w.player.actionTimer := by
  simp only [playerMovement]
  split_ifs <;> rfl

@[simp] theorem groundCollision_player_didHit (w : World) :
    (groundCollision w).player._didHit = w.player._didHit := by
  simp only [groundCollision]
  split_ifs <;> rfl

@[simp] theorem groundCollision_player_hp (w : World) :
    (groundCollision w).player.hp = w.player.hp := by
  simp only [groundCollision]
  split_ifs <;> rfl

@[simp] theorem groundCollision_player_actionTimer (w : World) :
    (groundCollision w).player.actionTimer = w.player.actionTimer := by
  simp only [groundCollision]
  split_ifs <;> rfl

@[simp] theorem groundCollision_enemy_didHit (w : World) :
    (groundCollision w).enemy._didHit = w.enemy._didHit := by
  simp only [groundCollision]
  split_ifs <;> rfl

@[simp] theorem groundCollision_enemy_hp (w : World) :
    (groundCollision w).enemy.hp = w.enemy.hp := by
  simp only [groundCollision]
  split_ifs <;> rfl

@[simp] theorem groundCollision_enemy_actionTimer (w : World) :
    (groundCollision w).enemy.actionTimer = w.enemy.actionTimer := by
  simp only [groundCollision]
  split_ifs <;> rfl

@[simp] theorem beforeHits_gameOver (w : World) :
    (beforeHits w).gameOver = w.gameOver := rfl

@[simp] theorem beforeHits_keys (w : World) :
    (beforeHits w).keys = w.keys := rfl

@[simp] theorem beforeHits_groundY (w : World) :
    (beforeHits w).groundY = w.groundY := rfl

@[simp] theorem beforeHits_canvasWidth (w : World) :
    (beforeHits w).canvasWidth = w.canvasWidth := rfl

@[simp] theorem beforeHits_player_didHit (w : World) :
    (beforeHits w).player._didHit = w.player._didHit := by
  simp [beforeHits]

@[simp] theorem beforeHits_player_hp (w : World) :
    (beforeHits w).player.hp = w.player.hp := by
  simp [beforeHits]

@[simp] theorem beforeHits_player_actionTimer (w : World) :
    (beforeHits w).player.actionTimer = w.player.actionTimer := by
  simp [beforeHits]

@[simp] theorem beforeHits_enemy_didHit (w : World) :
    (beforeHits w).enemy._didHit = w.enemy._didHit := by
  simp [beforeHits]

@[simp] theorem beforeHits_enemy_hp (w : World) :
    (beforeHits w).enemy.hp = w.enemy.hp := by
  simp [beforeHits]

@[simp] theorem beforeHits_enemy_actionTimer (w : World) :
    (beforeHits w).enemy.actionTimer = w.enemy.actionTimer := by
  simp [beforeHits]

theorem playerMovement_player_action_locked (w : World) (h : isLocked w.player.action = true) :
    (playerMovement w).player.action = w.player.action := by
  simp only [playerMovement, h]
  split_ifs <;> simp_all

theorem playerMovement_player_onGround_locked (w : World)
    (h : isLocked w.player.action = true) :
    (playerMovement w).player.onGround = w.player.onGround := by
  simp only [playerMovement, h]
  split_ifs <;> simp_all

theorem groundCollision_player_action_locked (w : World)
    (h : isLocked w.player.action = true) :
    (groundCollision w).player.action = w.player.action := by
  simp only [groundCollision, h]
  split_ifs <;> simp_all

theorem groundCollision_enemy_action_locked (w : World) (h : isLocked w.enemy.action = true) :
    (groundCollision w).enemy.action = w.enemy.action := by
  simp only [groundCollision, h]
  split_ifs <;> simp_all

theorem groundCollision_enemy_action (w : World) :
    (groundCollision w).enemy.action = w.enemy.action ∨
      (groundCollision w).enemy.action = Action.idle := by
  simp only [groundCollision]
  split_ifs <;> simp

theorem groundCollision_player_onGround (w : World) (h : w.player.onGround = true) :
    (groundCollision w).player.onGround = true := by
  simp only [groundCollision]
  split_ifs <;> simp [h]

theorem beforeHits_player_action_locked (w : World) (h : isLocked w.player.action = true) :
    (beforeHits w).player.action = w.player.action := by
  have h1 := playerMovement_player_action_locked w h
  simp only [beforeHits, boundaries_player_action]
  rw [groundCollision_player_action_locked, physics_player_action, enemyAI_player, h1]
  rw [physics_player_action, enemyAI_player, h1]; exact h

theorem beforeHits_player_onGround_locked (w : World) (h : isLocked w.player.action = true)
    (hg : w.player.onGround = true) : (beforeHits w).player.onGround = true := by
  simp only [beforeHits, boundaries_player_onGround]
  apply groundCollision_player_onGround
  rw [physics_player_onGround, enemyAI_player, playerMovement_player_onGround_locked w h, hg]

theorem beforeHits_enemy_action (w : World) :
    (beforeHits w).enemy.action = w.enemy.action ∨ (beforeHits w).enemy.action = Action.idle := by
  have h := groundCollision_enemy_action (physics (enemyAI (playerMovement w)))
  simpa [beforeHits] using h

theorem beforeHits_enemy_action_locked (w : World) (h : isLocked w.enemy.action = true) :
    (beforeHits w).enemy.action = w.enemy.action := by
  have h1 := groundCollision_enemy_action_locked (physics (enemyAI (playerMovement w)))
    (by simpa using h)
  simpa [beforeHits] using h1

@[simp] theorem playerHit_gameOver (M : JSMath) (w : World) :
    (playerHit M w).gameOver = w.gameOver := rfl

@[simp] theorem playerHit_keys (M : JSMath) (w : World) :
    (playerHit M w).keys = w.keys := rfl

@[simp] theorem playerHit_groundY (M : JSMath) (w : World) :
    (playerHit M w).groundY = w.groundY := rfl

@[simp] theorem playerHit_canvasWidth (M : JSMath) (w : World) :
    (playerHit M w).canvasWidth = w.canvasWidth := rfl

@[simp] theorem enemyHit_gameOver (M : JSMath) (w : World) :
    (enemyHit M w).gameOver = w.gameOver := rfl

@[simp] theorem enemyHit_keys (M : JSMath) (w : World) :
    (enemyHit M w).keys = w.keys := rfl

@[simp] theorem enemyHit_groundY (M : JSMath) (w : World) :
    (enemyHit M w).groundY = w.groundY := rfl

@[simp] theorem enemyHit_canvasWidth (M : JSMath) (w : World) :
    (enemyHit M w).canvasWidth = w.canvasWidth := rfl

@[simp] theorem actionTimers_gameOver (w : World) :
    (actionTimers w).gameOver = w.gameOver := rfl

@[simp] theorem actionTimers_keys (w : World) :
    (actionTimers w).keys = w.keys := rfl

@[simp] theorem actionTimers_groundY (w : World) :
    (actionTimers w).groundY = w.groundY := rfl

@[simp] theorem actionTimers_canvasWidth (w : World) :
    (actionTimers w).canvasWidth = w.canvasWidth := rfl

@[simp] theorem actionTimers_player_didHit (w : World) :
    (actionTimers w).player._didHit = w.player._didHit := by
  simp only [actionTimers]
  split_ifs <;> rfl

@[simp] theorem actionTimers_player_hp (w : World) :
    (actionTimers w).player.hp = w.player.hp := by
  simp only [actionTimers]
  split_ifs <;> rfl

@[simp] theorem actionTimers_player_onGround (w : World) :
    (actionTimers w).player.onGround = w.player.onGround := by
  simp only [actionTimers]
  split_ifs <;> rfl

@[simp] theorem actionTimers_enemy_didHit (w : World) :
    (actionTimers w).enemy._didHit = w.enemy._didHit := by
  simp only [actionTimers]
  split_ifs <;> rfl

@[simp] theorem actionTimers_enemy_hp (w : World) :
    (actionTimers w).enemy.hp = w.enemy.hp := by
  simp only [actionTimers]
  split_ifs <;> rfl

@[simp] theorem actionTimers_enemy_onGround (w : World) :
    (actionTimers w).enemy.onGround = w.enemy.onGround := by
  simp only [actionTimers]
  split_ifs <;> rfl

@[simp] theorem koCheck_player (w : World) : (koCheck w).player = w.player := by
  unfold koCheck; split <;> rfl

@[simp] theorem koCheck_enemy (w : World) : (koCheck w).enemy = w.enemy := by
  unfold koCheck; split <;> rfl

@[simp] theorem koCheck_keys (w : World) : (koCheck w).keys = w.keys := by
  unfold koCheck; split <;> rfl

@[simp] theorem koCheck_groundY (w : World) : (koCheck w).groundY = w.groundY := by
  unfold koCheck; split <;> rfl

@[simp] theorem koCheck_canvasWidth (w : World) : (koCheck w).canvasWidth = w.canvasWidth := by
  unfold koCheck; split <;> rfl

theorem applyHit_snd_frame (a : Entity) (ax : ℚ) (d : Entity) (dx : ℚ) :
    (applyHit a ax d dx).2.x = d.x ∧ (applyHit a ax d dx).2.y = d.y ∧
    (applyHit a ax d dx).2.onGround = d.onGround ∧ (applyHit a ax d dx).2.facing = d.facing ∧
    (applyHit a ax d dx).2.action = d.action ∧
    (applyHit a ax d dx).2.actionTimer = d.actionTimer ∧
    (applyHit a ax d dx).2._didHit = d._didHit :=
  ⟨rfl, rfl, rfl, rfl, rfl, rfl, rfl⟩

/-- The defender keeps its position, ground flag, facing, action, timer and
hit flag through `handleHit`. -/
theorem handleHit_snd_frame (M : JSMath) (a : Entity) (ax ay : ℚ) (d : Entity) (dx dy : ℚ) :
    (handleHit M a ax ay d dx dy).2.x = d.x ∧ (handleHit M a ax ay d dx dy).2.y = d.y ∧
    (handleHit M a ax ay d dx dy).2.onGround = d.onGround ∧
    (handleHit M a ax ay d dx dy).2.facing = d.facing ∧
    (handleHit M a ax ay d dx dy).2.action = d.action ∧
    (handleHit M a ax ay d dx dy).2.actionTimer = d.actionTimer ∧
    (handleHit M a ax ay d dx dy).2._didHit = d._didHit := by
  rw [handleHit_snd]
  split
  · exact applyHit_snd_frame a ax d dx
  · exact ⟨rfl, rfl, rfl, rfl, rfl, rfl, rfl⟩

/-- The attacker keeps everything but its hit flag through `handleHit`. -/
theorem handleHit_fst_frame (M : JSMath) (a : Entity) (ax ay : ℚ) (d : Entity) (dx dy : ℚ) :
    (handleHit M a ax ay d dx dy).1.x = a.x ∧ (handleHit M a ax ay d dx dy).1.y = a.y ∧
    (handleHit M a ax ay d dx dy).1.vx = a.vx ∧ (handleHit M a ax ay d dx dy).1.vy = a.vy ∧
    (handleHit M a ax ay d dx dy).1.onGround = a.onGround ∧
    (handleHit M a ax ay d dx dy).1.facing = a.facing ∧
    (handleHit M a ax ay d dx dy).1.action = a.action ∧
    (handleHit M a ax ay d dx dy).1.actionTimer = a.actionTimer ∧
    (handleHit M a ax ay d dx dy).1.hp = a.hp := by
  rw [handleHit_fst]
  split <;> exact ⟨rfl, rfl, rfl, rfl, rfl, rfl, rfl, rfl, rfl⟩

theorem handleHit_fst_didHit (M : JSMath) (a : Entity) (ax ay : ℚ) (d : Entity) (dx dy : ℚ) :
    (handleHit M a ax ay d dx dy).1._didHit
      = (a._didHit || decide (HitCondition M a ax ay dx dy)) := by
  rw [handleHit_fst]
  by_cases h : HitCondition M a ax ay dx dy
  · simp [h]
  · simp [h]

theorem handleHit_snd_ne_iff (M : JSMath) (a : Entity) (ax ay : ℚ) (d : Entity) (dx dy : ℚ) :
    (handleHit M a ax ay d dx dy).2 ≠ d ↔ HitCondition M a ax ay dx dy := by
  rw [handleHit_snd]
  by_cases h : HitCondition M a ax ay dx dy
  · simp only [h, if_true, iff_true]
    intro e
    exact applyHit_vx_ne a ax d dx (by rw [e])
  · simp [h]


@[simp] theorem playerHit_player_x (M : JSMath) (w : World) :
    (playerHit M w).player.x = w.player.x := 
  (handleHit_fst_frame M _ _ _ _ _ _).1

@[simp] theorem playerHit_player_y (M : JSMath) (w : World) :
    (playerHit M w).player.y = w.player.y := 
  (handleHit_fst_frame M _ _ _ _ _ _).2.1

@[simp] theorem playerHit_player_vx (M : JSMath) (w : World) :
    (playerHit M w).player.vx = w.player.vx := 
  (handleHit_fst_frame M _ _ _ _ _ _).2.2.1

@[simp] theorem playerHit_player_vy (M : JSMath) (w : World) :
    (playerHit M w).player.vy = w.player.vy := 
  (handleHit_fst_frame M _ _ _ _ _ _).2.2.2.1

@[simp] theorem playerHit_player_onGround (M : JSMath) (w : World) :
    (playerHit M w).player.onGround = w.player.onGround := 
  (handleHit_fst_frame M _ _ _ _ _ _).2.2.2.2.1

@[simp] theorem playerHit_player_facing (M : JSMath) (w : World) :
    (playerHit M w).player.facing = w.player.facing := 
  (handleHit_fst_frame M _ _ _ _ _ _).2.2.2.2.2.1

@[simp] theorem playerHit_player_action (M : JSMath) (w : World) :
    (playerHit M w).player.action = w.player.action := 
  (handleHit_fst_frame M _ _ _ _ _ _).2.2.2.2.2.2.1

@[simp] theorem playerHit_player_actionTimer (M : JSMath) (w : World) :
    (playerHit M w).player.actionTimer = w.player.actionTimer := 
  (handleHit_fst_frame M _ _ _ _ _ _).2.2.2.2.2.2.2.1

@[simp] theorem playerHit_player_hp (M : JSMath) (w : World) :
    (playerHit M w).player.hp = w.player.hp := 
  (handleHit_fst_frame M _ _ _ _ _ _).2.2.2.2.2.2.2.2

@[simp] theorem playerHit_enemy_x (M : JSMath) (w : World) :
    (playerHit M w).enemy.x = w.enemy.x := 
  (handleHit_snd_frame M _ _ _ _ _ _).1

@[simp] theorem playerHit_enemy_y (M : JSMath) (w : World) :
    (playerHit M w).enemy.y = w.enemy.y := 
  (handleHit_snd_frame M _ _ _ _ _ _).2.1

@[simp] theorem playerHit_enemy_onGround (M : JSMath) (w : World) :
    (playerHit M w).enemy.onGround = w.enemy.onGround := 
  (handleHit_snd_frame M _ _ _ _ _ _).2.2.1

@[simp] theorem playerHit_enemy_facing (M : JSMath) (w : World) :
    (playerHit M w).enemy.facing = w.enemy.facing := 
  (handleHit_snd_frame M _ _ _ _ _ _).2.2.2.1

@[simp] theorem playerHit_enemy_action (M : JSMath) (w : World) :
    (playerHit M w).enemy.action = w.enemy.action := 
  (handleHit_snd_frame M _ _ _ _ _ _).2.2.2.2.1

@[simp] theorem playerHit_enemy_actionTimer (M : JSMath) (w : World) :
    (playerHit M w).enemy.actionTimer = w.enemy.actionTimer := 
  (handleHit_snd_frame M _ _ _ _ _ _).2.2.2.2.2.1

@[simp] theorem playerHit_enemy_didHit (M : JSMath) (w : World) :
    (playerHit M w).enemy._didHit = w.enemy._didHit := 
  (handleHit_snd_frame M _ _ _ _ _ _).2.2.2.2.2.2

@[simp] theorem enemyHit_enemy_x (M : JSMath) (w : World) :
    (enemyHit M w).enemy.x = w.enemy.x := 
  (handleHit_fst_frame M _ _ _ _ _ _).1

@[simp] theorem enemyHit_enemy_y (M : JSMath) (w : World) :
    (enemyHit M w).enemy.y = w.enemy.y := 
  (handleHit_fst_frame M _ _ _ _ _ _).2.1

@[simp] theorem enemyHit_enemy_vx (M : JSMath) (w : World) :
    (enemyHit M w).enemy.vx = w.enemy.vx := 
  (handleHit_fst_frame M _ _ _ _ _ _).2.2.1

@[simp] theorem enemyHit_enemy_vy (M : JSMath) (w : World) :
    (enemyHit M w).enemy.vy = w.enemy.vy := 
  (handleHit_fst_frame M _ _ _ _ _ _).2.2.2.1

@[simp] theorem enemyHit_enemy_onGround (M : JSMath) (w : World) :
    (enemyHit M w).enemy.onGround = w.enemy.onGround := 
  (handleHit_fst_frame M _ _ _ _ _ _).2.2.2.2.1

@[simp] theorem enemyHit_enemy_facing (M : JSMath) (w : World) :
    (enemyHit M w).enemy.facing = w.enemy.facing := 
  (handleHit_fst_frame M _ _ _ _ _ _).2.2.2.2.2.1

@[simp] theorem enemyHit_enemy_action (M : JSMath) (w : World) :
    (enemyHit M w).enemy.action = w.enemy.action := 
  (handleHit_fst_frame M _ _ _ _ _ _).2.2.2.2.2.2.1

@[simp] theorem enemyHit_enemy_actionTimer (M : JSMath) (w : World) :
    (enemyHit M w).enemy.actionTimer = w.enemy.actionTimer := 
  (handleHit_fst_frame M _ _ _ _ _ _).2.2.2.2.2.2.2.1

@[simp] theorem enemyHit_enemy_hp (M : JSMath) (w : World) :
    (enemyHit M w).enemy.hp = w.enemy.hp := 
  (handleHit_fst_frame M _ _ _ _ _ _).2.2.2.2.2.2.2.2

@[simp] theorem enemyHit_player_x (M : JSMath) (w : World) :
    (enemyHit M w).player.x = w.player.x := 
  (handleHit_snd_frame M _ _ _ _ _ _).1

@[simp] theorem enemyHit_player_y (M : JSMath) (w : World) :
    (enemyHit M w).player.y = w.player.y := 
  (handleHit_snd_frame M _ _ _ _ _ _).2.1

@[simp] theorem enemyHit_player_onGround (M : JSMath) (w : World) :
    (enemyHit M w).player.onGround = w.player.onGround := 
  (handleHit_snd_frame M _ _ _ _ _ _).2.2.1

@[simp] theorem enemyHit_player_facing (M : JSMath) (w : World) :
    (enemyHit M w).player.facing = w.player.facing := 
  (handleHit_snd_frame M _ _ _ _ _ _).2.2.2.1

@[simp] theorem enemyHit_player_action (M : JSMath) (w : World) :
    (enemyHit M w).player.action = w.player.action := 
  (handleHit_snd_frame M _ _ _ _ _ _).2.2.2.2.1

@[simp] theorem enemyHit_player_actionTimer (M : JSMath) (w : World) :
    (enemyHit M w).player.actionTimer = w.player.actionTimer := 
  (handleHit_snd_frame M _ _ _ _ _ _).2.2.2.2.2.1

@[simp] theorem enemyHit_player_didHit (M : JSMath) (w : World) :
    (enemyHit M w).player._didHit = w.player._didHit := 
  (handleHit_snd_frame M _ _ _ _ _ _).2.2.2.2.2.2

/-! ## At most one hit per activation (C2) -/

theorem update_player_didHit (M : JSMath) (w : World) (h : w.player._didHit = true) :
    (update M w).player._didHit = true := by
  unfold update
  split
  · exact h
  · rw [koCheck_player, actionTimers_player_didHit, enemyHit_player_didHit]
    show (handleHit M _ _ _ _ _ _).1._didHit = true
    rw [handleHit_fst_didHit, beforeHits_player_didHit, h]; rfl

theorem update_enemy_didHit (M : JSMath) (w : World) (h : w.enemy._didHit = true) :
    (update M w).enemy._didHit = true := by
  unfold update
  split
  · exact h
  · rw [koCheck_enemy, actionTimers_enemy_didHit]
    show (handleHit M _ _ _ _ _ _).1._didHit = true
    rw [handleHit_fst_didHit, playerHit_enemy_didHit, beforeHits_enemy_didHit, h]; rfl

theorem onKeyUp_didHit (w : World) (k : String) :
    (onKeyUp w k).player._didHit = w.player._didHit ∧
      (onKeyUp w k).enemy._didHit = w.enemy._didHit := by
  unfold onKeyUp
  simp only
  split_ifs <;> exact ⟨rfl, rfl⟩

theorem onKeyDown_player_didHit (w : World) (k : String)
    (hc : ¬ ClearsPlayerFlag w (Event.keyDown k)) :
    (onKeyDown w k).player._didHit = w.player._didHit := by
  simp only [ClearsPlayerFlag, not_or, not_and] at hc
  unfold onKeyDown
  simp only
  split_ifs with h1 h2 h3 h4
  · exact absurd h1.2 (hc.1 h1.1)
  · exfalso
    simp only [Bool.and_eq_true, decide_eq_true_eq, Bool.not_eq_true'] at h2
    exact absurd h2.2.2 (by simpa using hc.2 (Or.inl h2.1) h2.2.1.1 h2.2.1.2)
  · exfalso
    simp only [Bool.and_eq_true, decide_eq_true_eq, Bool.not_eq_true'] at h3
    exact absurd h3.2.2 (by simpa using hc.2 (Or.inr h3.1) h3.2.1.1 h3.2.1.2)
  · rfl
  · rfl

theorem onKeyDown_enemy_didHit (w : World) (k : String)
    (hc : ¬ ClearsEnemyFlag w (Event.keyDown k)) :
    (onKeyDown w k).enemy._didHit = w.enemy._didHit := by
  simp only [ClearsEnemyFlag] at hc
  unfold onKeyDown
  simp only
  rw [if_neg hc]
  split_ifs <;> rfl

theorem step_player_didHit (M : JSMath) (w : World) (e : Event)
    (hc : ¬ ClearsPlayerFlag w e) (h : w.player._didHit = true) :
    (step M w e).player._didHit = true := by
  cases e with
  | tick => exact update_player_didHit M w h
  | keyDown k => show (onKeyDown w k).player._didHit = true; rw [onKeyDown_player_didHit w k hc, h]
  | keyUp k => show (onKeyUp w k).player._didHit = true; rw [(onKeyUp_didHit w k).1, h]
  | reset => exact absurd trivial hc

theorem step_enemy_didHit (M : JSMath) (w : World) (e : Event)
    (hc : ¬ ClearsEnemyFlag w e) (h : w.enemy._didHit = true) :
    (step M w e).enemy._didHit = true := by
  cases e with
  | tick => exact update_enemy_didHit M w h
  | keyDown k => show (onKeyDown w k).enemy._didHit = true; rw [onKeyDown_enemy_didHit w k hc, h]
  | keyUp k => show (onKeyUp w k).enemy._didHit = true; rw [(onKeyUp_didHit w k).2, h]
  | reset => exact absurd trivial hc

theorem playerLands_flag (M : JSMath) (w : World) (h : PlayerLands M w) :
    w.player._didHit = false ∧ (update M w).player._didHit = true := by
  obtain ⟨hg, hne⟩ := h
  have hcond := (handleHit_snd_ne_iff M _ _ _ _ _ _).1 hne
  refine ⟨by simpa using hcond.2.1, ?_⟩
  unfold update
  rw [if_neg (by simp [hg]), koCheck_player, actionTimers_player_didHit, enemyHit_player_didHit]
  show (handleHit M _ _ _ _ _ _).1._didHit = true
  rw [handleHit_fst_didHit, decide_eq_true hcond, Bool.or_true]

theorem enemyLands_flag (M : JSMath) (w : World) (h : EnemyLands M w) :
    w.enemy._didHit = false ∧ (update M w).enemy._didHit = true := by
  obtain ⟨hg, hne⟩ := h
  have hcond := (handleHit_snd_ne_iff M _ _ _ _ _ _).1 hne
  refine ⟨by simpa using hcond.2.1, ?_⟩
  unfold update
  rw [if_neg (by simp [hg]), koCheck_enemy, actionTimers_enemy_didHit]
  show (handleHit M _ _ _ _ _ _).1._didHit = true
  rw [handleHit_fst_didHit, decide_eq_true hcond, Bool.or_true]

theorem playerHits_bound (M : JSMath) (es : List Event) :
    ∀ w : World, NoClear ClearsPlayerFlag M w es →
      playerHits M w es ≤ 1 ∧ (w.player._didHit = true → playerHits M w es = 0) := by
  induction es with
  | nil => intro w _; exact ⟨Nat.zero_le _, fun _ => rfl⟩
  | cons e es ih =>
    intro w hnc
    obtain ⟨hc, hrest⟩ := hnc
    obtain ⟨ih1, ih2⟩ := ih (step M w e) hrest
    by_cases hl : e = Event.tick ∧ PlayerLands M w
    · obtain ⟨he, hp⟩ := hl
      obtain ⟨hf, hu⟩ := playerLands_flag M w hp
      subst he
      have h0 := ih2 hu
      refine ⟨?_, fun ht => ?_⟩
      · simp only [playerHits, hp, and_self, if_true]
        have : playerHits M (step M w Event.tick) es = 0 := h0
        omega
      · rw [hf] at ht; exact absurd ht (by decide)
    · refine ⟨?_, fun ht => ?_⟩
      · simp only [playerHits, hl, if_false]; omega
      · simp only [playerHits, hl, if_false]
        rw [ih2 (step_player_didHit M w e hc ht)]

theorem enemyHits_bound (M : JSMath) (es : List Event) :
    ∀ w : World, NoClear ClearsEnemyFlag M w es →
      enemyHits M w es ≤ 1 ∧ (w.enemy._didHit = true → enemyHits M w es = 0) := by
  induction es with
  | nil => intro w _; exact ⟨Nat.zero_le _, fun _ => rfl⟩
  | cons e es ih =>
    intro w hnc
    obtain ⟨hc, hrest⟩ := hnc
    obtain ⟨ih1, ih2⟩ := ih (step M w e) hrest
    by_cases hl : e = Event.tick ∧ EnemyLands M w
    · obtain ⟨he, hp⟩ := hl
      obtain ⟨hf, hu⟩ := enemyLands_flag M w hp
      subst he
      have h0 := ih2 hu
      refine ⟨?_, fun ht => ?_⟩
      · simp only [enemyHits, hp, and_self, if_true]
        have : enemyHits M (step M w Event.tick) es = 0 := h0
        omega
      · rw [hf] at ht; exact absurd ht (by decide)
    · refine ⟨?_, fun ht => ?_⟩
      · simp only [enemyHits, hl, if_false]; omega
      · simp only [enemyHits, hl, if_false]
        rw [ih2 (step_enemy_didHit M w e hc ht)]

theorem clearsPlayerFlag_clears (M : JSMath) (w : World) (e : Event)
    (h : ClearsPlayerFlag w e) : (step M w e).player._didHit = false := by
  cases e with
  | tick => exact absurd h id
  | keyUp k => exact absurd h id
  | reset => rfl
  | keyDown k =>
    show (onKeyDown w k).player._didHit = false
    unfold onKeyDown
    simp only
    rcases h with ⟨hg, hk⟩ | ⟨hk, hon, ht, hg⟩
    · rw [if_pos ⟨hg, hk⟩]; rfl
    · rw [if_neg (by simp [hg])]
      rcases hk with hk | hk
      · rw [if_pos ⟨hk, by simp [hon, ht, hg]⟩]
      · subst hk
        rw [if_neg (by simp), if_pos ⟨rfl, by simp [hon, ht, hg]⟩]

theorem clearsEnemyFlag_clears (M : JSMath) (w : World) (e : Event)
    (h : ClearsEnemyFlag w e) : (step M w e).enemy._didHit = false := by
  cases e with
  | tick => exact absurd h id
  | keyUp k => exact absurd h id
  | reset => rfl
  | keyDown k =>
    show (onKeyDown w k).enemy._didHit = false
    unfold onKeyDown
    simp only
    rw [if_pos (show w.gameOver = true ∧ k = "r" from h)]; rfl

/-- C2: in an execution (ticks, key-down and key-up events, `resetRound`)
that contains no event clearing the player's `_didHit` flag, the player's
`handleHit` call changes the enemy in at most one tick, and likewise for the
enemy's call between two `resetRound`s; the events named as clearing do clear
the flag; and once `_didHit` is set `handleHit` returns both entities
unchanged. -/
theorem hit_at_most_once_per_activation (M : JSMath) (w : World) (es : List Event) :
    (NoClear ClearsPlayerFlag M w es → playerHits M w es ≤ 1) ∧
    (NoClear ClearsEnemyFlag M w es → enemyHits M w es ≤ 1) ∧
    (∀ e : Event, ClearsPlayerFlag w e → (step M w e).player._didHit = false) ∧
    (∀ e : Event, ClearsEnemyFlag w e → (step M w e).enemy._didHit = false) ∧
    (∀ (a : Entity) (ax ay : ℚ) (d : Entity) (dx dy : ℚ),
      a._didHit = true → handleHit M a ax ay d dx dy = (a, d)) :=
  ⟨fun h => (playerHits_bound M es w h).1, fun h => (enemyHits_bound M es w h).1,
    clearsPlayerFlag_clears M w, clearsEnemyFlag_clears M w,
    fun a ax ay d dx dy h => handleHit_flag_set M a ax ay d dx dy h⟩

theorem beforeHits_duel : beforeHits duel = duel := by
  norm_num [beforeHits, boundaries, groundCollision, physics, enemyAI, playerMovement, duel,
    standing, isLocked, clampX, gravity]

theorem playerLands_duel : PlayerLands sampleMath duel := by
  refine ⟨rfl, ?_⟩
  rw [beforeHits_duel]
  exact (handleHit_snd_ne_iff sampleMath _ _ _ _ _ _).2 sample_in_reach

/-- C2 at a concrete execution: with the fist in reach on three consecutive
ticks, exactly one of them damages the enemy. -/
theorem hit_at_most_once_per_activation_witness :
    playerHits sampleMath duel [Event.tick, Event.tick, Event.keyUp "c", Event.tick] ≤ 1 ∧
    0 < playerHits sampleMath duel [Event.tick, Event.tick, Event.keyUp "c", Event.tick] :=
  ⟨(hit_at_most_once_per_activation sampleMath duel _).1
      (by simp [NoClear, ClearsPlayerFlag]),
    by simp [playerHits, playerLands_duel]⟩

/-! ## Health bounds (C4) -/

/-- Both fighters' hp lie within `[0, 100]`. -/
theorem update_hp (M : JSMath) (w : World)
    (h : (0 ≤ w.player.hp ∧ w.player.hp ≤ 100) ∧ (0 ≤ w.enemy.hp ∧ w.enemy.hp ≤ 100)) :
    (0 ≤ (update M w).player.hp ∧ (update M w).player.hp ≤ 100) ∧
      (0 ≤ (update M w).enemy.hp ∧ (update M w).enemy.hp ≤ 100) := by
  unfold update
  split
  · exact h
  · rw [koCheck_player, koCheck_enemy, actionTimers_player_hp, actionTimers_enemy_hp,
      enemyHit_enemy_hp]
    constructor
    · have hp := handleHit_hp M (playerHit M (beforeHits w)).enemy
        (playerHit M (beforeHits w)).enemy.x (playerHit M (beforeHits w)).enemy.y
        (playerHit M (beforeHits w)).player (playerHit M (beforeHits w)).player.x
        (playerHit M (beforeHits w)).player.y
        (by rw [playerHit_player_hp, beforeHits_player_hp]; exact h.1.1)
        (by rw [playerHit_player_hp, beforeHits_player_hp]; exact h.1.2)
      exact ⟨hp.2.1, hp.2.2⟩
    · have hp := handleHit_hp M (beforeHits w).player (beforeHits w).player.x
        (beforeHits w).player.y (beforeHits w).enemy (beforeHits w).enemy.x
        (beforeHits w).enemy.y
        (by rw [beforeHits_enemy_hp]; exact h.2.1) (by rw [beforeHits_enemy_hp]; exact h.2.2)
      exact ⟨hp.2.1, hp.2.2⟩

theorem resetRound_hp (w : World) :
    (0 ≤ (resetRound w).player.hp ∧ (resetRound w).player.hp ≤ 100) ∧
      (0 ≤ (resetRound w).enemy.hp ∧ (resetRound w).enemy.hp ≤ 100) := by
  simp only [resetRound]; norm_num

theorem onKeyDown_hp (w : World) (k : String)
    (h : (0 ≤ w.player.hp ∧ w.player.hp ≤ 100) ∧ (0 ≤ w.enemy.hp ∧ w.enemy.hp ≤ 100)) :
    (0 ≤ (onKeyDown w k).player.hp ∧ (onKeyDown w k).player.hp ≤ 100) ∧
      (0 ≤ (onKeyDown w k).enemy.hp ∧ (onKeyDown w k).enemy.hp ≤ 100) := by
  unfold onKeyDown
  simp only
  split_ifs
  · exact resetRound_hp _
  all_goals exact h

theorem onKeyUp_hp (w : World) (k : String) :
    (onKeyUp w k).player.hp = w.player.hp ∧ (onKeyUp w k).enemy.hp = w.enemy.hp := by
  unfold onKeyUp
  simp only
  split_ifs <;> exact ⟨rfl, rfl⟩

theorem step_hp (M : JSMath) (w : World) (e : Event)
    (h : (0 ≤ w.player.hp ∧ w.player.hp ≤ 100) ∧ (0 ≤ w.enemy.hp ∧ w.enemy.hp ≤ 100)) :
    (0 ≤ (step M w e).player.hp ∧ (step M w e).player.hp ≤ 100) ∧
      (0 ≤ (step M w e).enemy.hp ∧ (step M w e).enemy.hp ≤ 100) := by
  cases e with
  | tick => exact update_hp M w h
  | keyDown k => exact onKeyDown_hp w k h
  | keyUp k =>
    show (0 ≤ (onKeyUp w k).player.hp ∧ (onKeyUp w k).player.hp ≤ 100) ∧
      (0 ≤ (onKeyUp w k).enemy.hp ∧ (onKeyUp w k).enemy.hp ≤ 100)
    rw [(onKeyUp_hp w k).1, (onKeyUp_hp w k).2]; exact h
  | reset => exact resetRound_hp w

theorem run_hp (M : JSMath) (es : List Event) :
    ∀ w : World,
      ((0 ≤ w.player.hp ∧ w.player.hp ≤ 100) ∧ (0 ≤ w.enemy.hp ∧ w.enemy.hp ≤ 100)) →
      (0 ≤ (run M w es).player.hp ∧ (run M w es).player.hp ≤ 100) ∧
        (0 ≤ (run M w es).enemy.hp ∧ (run M w es).enemy.hp ≤ 100) := by
  induction es with
  | nil => intro w h; exact h
  | cons e es ih => intro w h; exact ih (step M w e) (step_hp M w e h)

theorem initWorld_hp (W H : ℕ) :
    (0 ≤ (initWorld W H).player.hp ∧ (initWorld W H).player.hp ≤ 100) ∧
      (0 ≤ (initWorld W H).enemy.hp ∧ (initWorld W H).enemy.hp ≤ 100) := by
  simp only [initWorld]; norm_num

/-- C4: for a defender whose hp is within `[0, 100]`, the hp after `handleHit`
is at most the old hp and still within `[0, 100]` (it is the old hp, or
`max(0, hp - damage)`); and in every state reachable from the initial state by
ticks, key events and `resetRound`, both fighters' hp lie within `[0, 100]`. -/
theorem hp_within_bounds (M : JSMath) :
    (∀ (attacker : Entity) (ax ay : ℚ) (defender : Entity) (dx dy : ℚ),
      0 ≤ defender.hp → defender.hp ≤ 100 →
        (handleHit M attacker ax ay defender dx dy).2.hp ≤ defender.hp ∧
        0 ≤ (handleHit M attacker ax ay defender dx dy).2.hp ∧
        (handleHit M attacker ax ay defender dx dy).2.hp ≤ 100 ∧
        ((handleHit M attacker ax ay defender dx dy).2.hp = defender.hp ∨
          (handleHit M attacker ax ay defender dx dy).2.hp
            = max 0 (defender.hp - hitDamage attacker ax defender dx))) ∧
    (∀ (innerWidth innerHeight : ℕ) (w : World), Reachable M innerWidth innerHeight w →
      (0 ≤ w.player.hp ∧ w.player.hp ≤ 100) ∧ (0 ≤ w.enemy.hp ∧ w.enemy.hp ≤ 100)) := by
  constructor
  · intro a ax ay d dx dy h0 h100
    obtain ⟨h1, h2, h3⟩ := handleHit_hp M a ax ay d dx dy h0 h100
    refine ⟨h1, h2, h3, ?_⟩
    rw [handleHit_snd]
    split
    · exact Or.inr rfl
    · exact Or.inl rfl
  · rintro W H w ⟨es, rfl⟩
    exact run_hp M es _ (initWorld_hp W H)

/-- C4 at concrete inputs: the light attack of `duel` takes the enemy from 100
to at most 100 hp, and the state after two ticks from the initial state of an
800 x 600 window has both hp within bounds. -/
theorem hp_within_bounds_witness :
    (handleHit sampleMath duel.player 100 0 duel.enemy 125 0).2.hp ≤ duel.enemy.hp ∧
    ((0 ≤ (run sampleMath (initWorld 800 600) [Event.tick, Event.tick]).player.hp ∧
        (run sampleMath (initWorld 800 600) [Event.tick, Event.tick]).player.hp ≤ 100) ∧
      (0 ≤ (run sampleMath (initWorld 800 600) [Event.tick, Event.tick]).enemy.hp ∧
        (run sampleMath (initWorld 800 600) [Event.tick, Event.tick]).enemy.hp ≤ 100)) :=
  ⟨((hp_within_bounds sampleMath).1 duel.player 100 0 duel.enemy 125 0
      (by norm_num [duel, standing]) (by norm_num [duel, standing])).1,
    (hp_within_bounds sampleMath).2 800 600 _ ⟨[Event.tick, Event.tick], rfl⟩⟩

/-! ## Action timers (C6) -/

theorem actionTimers_player_actionTimer (w : World) :
    (actionTimers w).player.actionTimer
      = if w.player.actionTimer > 0 then w.player.actionTimer - 1 else w.player.actionTimer := by
  simp only [actionTimers]
  split_ifs <;> rfl

theorem actionTimers_player_action (w : World) :
    (actionTimers w).player.action
      = if w.player.actionTimer > 0 ∧ w.player.actionTimer - 1 = 0 ∧
            w.player.action ≠ Action.jump then
          (if w.player.onGround && (w.keys.ArrowLeft || w.keys.ArrowRight) then Action.run
           else Action.idle)
        else w.player.action := by
  simp only [actionTimers]
  split_ifs <;> first | rfl | (exfalso; simp_all)

theorem actionTimers_enemy_action (w : World) :
    (actionTimers w).enemy.action
      = if w.enemy.actionTimer > 0 ∧ w.enemy.actionTimer - 1 = 0 ∧
            w.enemy.action ≠ Action.jump then Action.idle
        else w.enemy.action := by
  simp only [actionTimers]
  split_ifs <;> first | rfl | (exfalso; simp_all)

theorem update_player_of_running (M : JSMath) (w : World) (hg : w.gameOver = false) :
    (update M w).player
      = (actionTimers (enemyHit M (playerHit M (beforeHits w)))).player := by
  unfold update
  rw [if_neg (by simp [hg]), koCheck_player]

theorem update_enemy_of_running (M : JSMath) (w : World) (hg : w.gameOver = false) :
    (update M w).enemy
      = (actionTimers (enemyHit M (playerHit M (beforeHits w)))).enemy := by
  unfold update
  rw [if_neg (by simp [hg]), koCheck_enemy]

theorem isLocked_ne_jump (a : Action) (h : isLocked a = true) : a ≠ Action.jump := by
  cases a <;> simp [isLocked] at h ⊢

/-- C6: in a tick with the round not over and the player in a locked action
with `actionTimer = n > 0`, the timer becomes `n - 1`; for `n > 1` the action is
unchanged; for `n = 1` the action becomes run when the player is on the ground
and ArrowLeft or ArrowRight is held, and idle otherwise, so never jump (the
player's ground flag is not lowered by such a tick).  For the enemy, a timer
that expires on an action other than jump leaves it idle. -/
theorem locked_action_timer_tick (M : JSMath) (w : World) (n : ℤ)
    (hg : w.gameOver = false) (hl : isLocked w.player.action = true)
    (hn : w.player.actionTimer = n) (hpos : 0 < n) :
    (update M w).player.actionTimer = n - 1 ∧
    (1 < n → (update M w).player.action = w.player.action) ∧
    (n = 1 →
      (update M w).player.action
        = if (update M w).player.onGround = true ∧
              (w.keys.ArrowLeft = true ∨ w.keys.ArrowRight = true) then Action.run
          else Action.idle) ∧
    (w.player.onGround = true → (update M w).player.onGround = true) ∧
    (update M w).player.action ≠ Action.jump ∧
    (w.enemy.actionTimer = 1 → w.enemy.action ≠ Action.jump →
      (update M w).enemy.action = Action.idle) := by
  have hact : (enemyHit M (playerHit M (beforeHits w))).player.action = w.player.action := by
    rw [enemyHit_player_action, playerHit_player_action, beforeHits_player_action_locked w hl]
  have htim : (enemyHit M (playerHit M (beforeHits w))).player.actionTimer = n := by
    rw [enemyHit_player_actionTimer, playerHit_player_actionTimer,
      beforeHits_player_actionTimer, hn]
  have hgr : (update M w).player.onGround
      = (enemyHit M (playerHit M (beforeHits w))).player.onGround := by
    rw [update_player_of_running M w hg, actionTimers_player_onGround]
  have hkeys : (enemyHit M (playerHit M (beforeHits w))).keys = w.keys := rfl
  have hnj := isLocked_ne_jump _ hl
  have hA : (update M w).player.action
      = if 0 < n ∧ n - 1 = 0 ∧ w.player.action ≠ Action.jump then
          (if (update M w).player.onGround && (w.keys.ArrowLeft || w.keys.ArrowRight)
            then Action.run else Action.idle)
        else w.player.action := by
    rw [hgr, update_player_of_running M w hg, actionTimers_player_action, hact, htim, hkeys]
  refine ⟨?_, fun h1 => ?_, fun h1 => ?_, fun hon => ?_, ?_, fun he hj => ?_⟩
  · rw [update_player_of_running M w hg, actionTimers_player_actionTimer, htim]
    rw [if_pos hpos]
  · rw [hA, if_neg (by intro h; omega)]
  · rw [hA, if_pos ⟨hpos, by omega, hnj⟩]
    by_cases c : (update M w).player.onGround = true ∧
        (w.keys.ArrowLeft = true ∨ w.keys.ArrowRight = true)
    · rw [if_pos c, if_pos (by simpa using c)]
    · rw [if_neg c, if_neg (by simpa using c)]
  · rw [hgr, enemyHit_player_onGround, playerHit_player_onGround]
    exact beforeHits_player_onGround_locked w hl hon
  · rw [hA]
    split_ifs <;> first | exact hnj | decide
  · rw [update_enemy_of_running M w hg, actionTimers_enemy_action, enemyHit_enemy_action,
      enemyHit_enemy_actionTimer, playerHit_enemy_action, playerHit_enemy_actionTimer,
      beforeHits_enemy_actionTimer, he]
    have hb : (beforeHits w).enemy.action ≠ Action.jump := by
      rcases beforeHits_enemy_action w with h | h
      · rw [h]; exact hj
      · rw [h]; decide
    rw [if_pos ⟨by norm_num, by norm_num, hb⟩]

/-- C6 at a concrete input: `duel` with one frame left on the player's light
attack; after the tick the timer is 0 and the player is idle. -/
theorem locked_action_timer_tick_witness :
    (update sampleMath { duel with player := standing 100 1 Action.light 1 }).player.actionTimer
        = 0 ∧
    (update sampleMath { duel with player := standing 100 1 Action.light 1 }).player.action
        = Action.idle := by
  have h := locked_action_timer_tick sampleMath
    { duel with player := standing 100 1 Action.light 1 } 1 rfl rfl rfl (by norm_num)
  refine ⟨by rw [h.1]; norm_num, ?_⟩
  rw [h.2.2.1 rfl, if_neg]
  simp [duel]

/-! ## Round reset (C10) -/

/-- C10: from every prior state `resetRound` yields both hp 100, the player at
`floor(width / 2) - 120` and the enemy at `floor(width / 2) + 120`, both on the
ground line with zero velocity and `onGround`, facing 1 and -1, both idle with
timer 0 and the hit flag cleared, and `gameOver` false; the canvas size, the
ground line and the keys are kept.  Whenever the canvas is the one the
simulation started with, these are the entities and the flag of the initial
state. -/
theorem resetRound_restores_initial (w : World) :
    (resetRound w).player
      = { x := jsFloor (w.canvasWidth / 2) - 120, y := w.groundY, vx := 0, vy := 0
          onGround := true, facing := 1, action := Action.idle, actionTimer := 0
          hp := 100, _didHit := false } ∧
    (resetRound w).enemy
      = { x := jsFloor (w.canvasWidth / 2) + 120, y := w.groundY, vx := 0, vy := 0
          onGround := true, facing := -1, action := Action.idle, actionTimer := 0
          hp := 100, _didHit := false } ∧
    (resetRound w).gameOver = false ∧
    (resetRound w).keys = w.keys ∧
    (resetRound w).groundY = w.groundY ∧
    (resetRound w).canvasWidth = w.canvasWidth ∧
    jsFloor (w.canvasWidth / 2) - (resetRound w).player.x
      = (resetRound w).enemy.x - jsFloor (w.canvasWidth / 2) ∧
    (∀ innerWidth innerHeight : ℕ,
      w.canvasWidth = (initWorld innerWidth innerHeight).canvasWidth →
      w.groundY = (initWorld innerWidth innerHeight).groundY →
        (resetRound w).player = (initWorld innerWidth innerHeight).player ∧
        (resetRound w).enemy = (initWorld innerWidth innerHeight).enemy ∧
        (resetRound w).gameOver = (initWorld innerWidth innerHeight).gameOver) := by
  refine ⟨rfl, rfl, rfl, rfl, rfl, rfl, ?_, ?_⟩
  · simp only [resetRound]; ring
  · intro W H hw hg
    have hw2 : w.canvasWidth = (W : ℚ) := hw
    have hg2 : w.groundY = jsFloor ((H : ℚ) * 0.8) := hg
    simp [resetRound, initWorld, hw2, hg2]

/-- C10 at a concrete input: resetting the state reached from the initial
state of an 800 x 600 window by a key press and a tick gives back the initial
fighters. -/
theorem resetRound_restores_initial_witness :
    (resetRound (run sampleMath (initWorld 800 600) [Event.keyDown "z", Event.tick])).player
      = (initWorld 800 600).player ∧
    (resetRound (run sampleMath (initWorld 800 600) [Event.keyDown "z", Event.tick])).enemy
      = (initWorld 800 600).enemy ∧
    (resetRound (run sampleMath (initWorld 800 600) [Event.keyDown "z", Event.tick])).gameOver
      = (initWorld 800 600).gameOver :=
  (resetRound_restores_initial
    (run sampleMath (initWorld 800 600) [Event.keyDown "z", Event.tick])).2.2.2.2.2.2.2
    800 600 (by simp [run, step, update, onKeyDown, initWorld])
    (by simp [run, step, update, onKeyDown, initWorld])

/-! ## Interpolation in the network render loop (C7, C8) -/

theorem interpolationFactor_le_one (now lastUpdate : ℚ) :
    interpolationFactor now lastUpdate ≤ 1 := min_le_right _ _

theorem interpolationFactor_nonneg (now lastUpdate : ℚ) (h : lastUpdate ≤ now) :
    0 ≤ interpolationFactor now lastUpdate := by
  unfold interpolationFactor
  refine le_min ?_ (by norm_num)
  apply div_nonneg <;> linarith

theorem interpolationFactor_eq_one (now lastUpdate : ℚ) (h : 50 ≤ now - lastUpdate) :
    interpolationFactor now lastUpdate = 1 := by
  unfold interpolationFactor
  refine min_eq_right ?_
  rw [le_div_iff₀ (by norm_num)]; linarith

theorem frameFactors_in_unit (es : List NetEvent) :
    ∀ s : NetState, s.refs.lastUpdate ≤ s.clock →
      ∀ dt ∈ frameFactors s es, 0 ≤ dt ∧ dt ≤ 1 := by
  induction es with
  | nil => intro s _ dt hdt; simp [frameFactors] at hdt
  | cons e es ih =>
    intro s hs dt hdt
    cases e with
    | snapshot d game =>
      exact ih (netStep s (NetEvent.snapshot d game)) (le_refl _) dt hdt
    | frame d =>
      have hd : (0 : ℚ) ≤ (d : ℚ) := d.2
      simp only [frameFactors, List.mem_cons] at hdt
      rcases hdt with rfl | hdt
      · exact ⟨interpolationFactor_nonneg _ _ (by linarith), interpolationFactor_le_one _ _⟩
      · exact ih (netStep s (NetEvent.frame d))
          (by show s.refs.lastUpdate ≤ s.clock + (d : ℚ); linarith) dt hdt

/-- C7: the factor `dt` of every frame lies within `[0, 1]`.  The two times
are readings of the monotonic clock `performance.now()`, the arrival time read
first: over every sequence of arrivals and frames after the component has
rendered, whatever the (non-negative) times between readings, each frame's
`dt` is within `[0, 1]`.  So it is for every `now` not before the recorded
arrival time; `dt` is at most 1 for all values whatsoever, and an elapsed time
of 50 ms or more is clamped to 1. -/
theorem frame_factor_in_unit_interval (t0 : ℚ) (game : GameSnapshot) (slot : Option ℤ)
    (es : List NetEvent) :
    (∀ dt ∈ frameFactors (netInit t0 game slot) es, 0 ≤ dt ∧ dt ≤ 1) ∧
    (∀ now lastUpdate : ℚ, lastUpdate ≤ now →
      0 ≤ interpolationFactor now lastUpdate ∧ interpolationFactor now lastUpdate ≤ 1) ∧
    (∀ now lastUpdate : ℚ, interpolationFactor now lastUpdate ≤ 1) ∧
    (∀ now lastUpdate : ℚ, 50 ≤ now - lastUpdate → interpolationFactor now lastUpdate = 1) :=
  ⟨frameFactors_in_unit es (netInit t0 game slot) (le_refl _),
    fun now lastUpdate h =>
      ⟨interpolationFactor_nonneg now lastUpdate h, interpolationFactor_le_one now lastUpdate⟩,
    interpolationFactor_le_one, interpolationFactor_eq_one⟩

/-- C7 at a concrete execution: an arrival 16 ms after rendering, a frame 25 ms
later and another 80 ms after that compute the factors `1/2` and `1`, both
within `[0, 1]`. -/
theorem frame_factor_in_unit_interval_witness :
    frameFactors (netInit 1000 (sampleSnapshot []) (some 1))
        [NetEvent.snapshot 16 (sampleSnapshot (samplePlayers 0 100 100 100)),
         NetEvent.frame 25, NetEvent.frame 80] = [1 / 2, 1] ∧
    (0 ≤ (1 / 2 : ℚ) ∧ (1 / 2 : ℚ) ≤ 1) := by
  have h : frameFactors (netInit 1000 (sampleSnapshot []) (some 1))
      [NetEvent.snapshot 16 (sampleSnapshot (samplePlayers 0 100 100 100)),
       NetEvent.frame 25, NetEvent.frame 80] = [1 / 2, 1] := by
    simp only [frameFactors, netStep, netInit, onSnapshot, interpolationFactor]
    norm_num
  exact ⟨h, (frame_factor_in_unit_interval 1000 (sampleSnapshot []) (some 1)
    [NetEvent.snapshot 16 (sampleSnapshot (samplePlayers 0 100 100 100)),
     NetEvent.frame 25, NetEvent.frame 80]).1 (1 / 2) (by rw [h]; simp)⟩

theorem drawPlayers_interpolated (cx gy dt : ℚ) (pg : GameSnapshot) (players : List NetPlayer)
    (hlen : players.length = pg.players.length) (i : ℕ) (oldP newP : NetPlayer)
    (hold : pg.players[i]? = some oldP) (hnew : players[i]? = some newP) :
    (drawPlayers cx gy dt (some pg) players)[i]?
      = some { px := cx + (oldP.x + (newP.x - oldP.x) * dt)
               py := gy + (oldP.y + (newP.y - oldP.y) * dt)
               facing := newP.facing, action := newP.action, name := newP.name } := by
  obtain ⟨hi, hn⟩ := List.getElem?_eq_some.1 hnew
  obtain ⟨hi2, ho⟩ := List.getElem?_eq_some.1 hold
  unfold drawPlayers
  simp only
  rw [dif_pos hlen, List.getElem?_eq_getElem (by simpa using hi), List.getElem_ofFn]
  simp only [List.get_eq_getElem, Fin.coe_cast, hn, ho]

theorem drawPlayers_length (cx gy dt : ℚ) (prev : Option GameSnapshot)
    (players : List NetPlayer) : (drawPlayers cx gy dt prev players).length = players.length := by
  unfold drawPlayers
  cases prev with
  | none => simp [drawRaw]
  | some pg =>
    simp only
    split
    · simp
    · simp [drawRaw]

/-- C8: when the previous and the current snapshot have the same number of
players, the frame draws one stick per player, the one of index `i` at
`(cx + prev[i].x + (cur[i].x - prev[i].x) * dt, gy + prev[i].y + (cur[i].y -
prev[i].y) * dt)` with facing, action and name of the current snapshot; at
`dt = 0` that is the previous snapshot's position, at `dt = 1` the current
one's; `dt` is 0 at the arrival time and 1 from 50 ms after it. -/
theorem loop_interpolates (canvasWidth canvasHeight : ℕ) (g pg : GameSnapshot)
    (lastUpdate now : ℚ) (slot : Option ℤ)
    (hlen : g.players.length = pg.players.length) :
    (loop canvasWidth canvasHeight
        { latestGame := some g, prevState := some pg, lastUpdate := lastUpdate
          latestSlot := slot } now).sticks.length = g.players.length ∧
    (∀ (i : ℕ) (oldP newP : NetPlayer),
      pg.players[i]? = some oldP → g.players[i]? = some newP →
        (loop canvasWidth canvasHeight
            { latestGame := some g, prevState := some pg, lastUpdate := lastUpdate
              latestSlot := slot } now).sticks[i]?
          = some
              { px := (canvasWidth : ℚ) / 2 + oldP.x
                  + (newP.x - oldP.x) * interpolationFactor now lastUpdate
                py := jsFloor ((canvasHeight : ℚ) * 0.8) + oldP.y
                  + (newP.y - oldP.y) * interpolationFactor now lastUpdate
                facing := newP.facing, action := newP.action, name := newP.name } ∧
        (interpolationFactor now lastUpdate = 0 →
          (loop canvasWidth canvasHeight
              { latestGame := some g, prevState := some pg, lastUpdate := lastUpdate
                latestSlot := slot } now).sticks[i]?
            = some
                { px := (canvasWidth : ℚ) / 2 + oldP.x
                  py := jsFloor ((canvasHeight : ℚ) * 0.8) + oldP.y
                  facing := newP.facing, action := newP.action, name := newP.name }) ∧
        (interpolationFactor now lastUpdate = 1 →
          (loop canvasWidth canvasHeight
              { latestGame := some g, prevState := some pg, lastUpdate := lastUpdate
                latestSlot := slot } now).sticks[i]?
            = some
                { px := (canvasWidth : ℚ) / 2 + newP.x
                  py := jsFloor ((canvasHeight : ℚ) * 0.8) + newP.y
                  facing := newP.facing, action := newP.action, name := newP.name })) ∧
    (now = lastUpdate → interpolationFactor now lastUpdate = 0) ∧
    (50 ≤ now - lastUpdate → interpolationFactor now lastUpdate = 1) := by
  refine ⟨drawPlayers_length ((canvasWidth : ℚ) / 2) (jsFloor ((canvasHeight : ℚ) * 0.8))
      (interpolationFactor now lastUpdate) (some pg) g.players,
    fun i oldP newP hold hnew => ?_, fun h => ?_,
    fun h => interpolationFactor_eq_one now lastUpdate h⟩
  · have key := drawPlayers_interpolated ((canvasWidth : ℚ) / 2)
      (jsFloor ((canvasHeight : ℚ) * 0.8)) (interpolationFactor now lastUpdate) pg g.players
      hlen i oldP newP hold hnew
    have e : (loop canvasWidth canvasHeight
        { latestGame := some g, prevState := some pg, lastUpdate := lastUpdate
          latestSlot := slot } now).sticks
        = drawPlayers ((canvasWidth : ℚ) / 2) (jsFloor ((canvasHeight : ℚ) * 0.8))
            (interpolationFactor now lastUpdate) (some pg) g.players := rfl
    rw [e, key]
    refine ⟨?_, fun h0 => ?_, fun h1 => ?_⟩
    · simp only [add_assoc]
    · rw [h0]; simp
    · rw [h1]; simp
  · subst h
    norm_num [interpolationFactor]

/-- C8 at a concrete input: two players, 25 ms after the arrival; the first
player, moving from `x = 0` to `x = 10`, is drawn halfway. -/
theorem loop_interpolates_witness :
    (loop 800 600
        { latestGame := some { players := samplePlayers 10 100 100 100, ko := false
                               koReason := "", timer := 90 }
          prevState := some { players := samplePlayers 0 100 100 100, ko := false
                              koReason := "", timer := 90 }
          lastUpdate := 1000, latestSlot := some 1 } 1025).sticks[0]?
      = some
          { px := (800 : ℚ) / 2 + 0 + (10 - 0) * interpolationFactor 1025 1000
            py := jsFloor ((600 : ℚ) * 0.8) + 0 + (0 - 0) * interpolationFactor 1025 1000
            facing := 1, action := "run", name := "Ann" } :=
  ((loop_interpolates 800 600
      { players := samplePlayers 10 100 100 100, ko := false, koReason := "", timer := 90 }
      { players := samplePlayers 0 100 100 100, ko := false, koReason := "", timer := 90 }
      1000 1025 (some 1) rfl).2.1 0 _ _ rfl rfl).1

/-! ## Perspective and outcome message (C9) -/

theorem hpGone_iff (p : Option NetPlayer) : hpGone p = true ↔ HpAtMostZero p := by
  unfold hpGone HpAtMostZero
  cases p with
  | none => simp
  | some q =>
    cases hq : q.hp with
    | none => simp [hq]
    | some h => simp [hq]

theorem koOverlay_some (g : GameSnapshot) (me enemy : Option NetPlayer) :
    koOverlay (some g) me enemy
      = if g.ko = true ∨ HpAtMostZero me ∨ HpAtMostZero enemy then
          some (if g.koReason = "timeout" then "Time Up!"
                else if HpAtMostZero me then "You Lose"
                else if HpAtMostZero enemy then "You Win!"
                else "KO!")
        else none := by
  unfold koOverlay
  simp only [Bool.or_eq_true, hpGone_iff, decide_eq_true_eq, or_assoc]

/-- C9: the overlay of a frame is a function of the slot and the current
snapshot only.  With `me = players[1]` when the slot is 2 and `players[0]`
otherwise, and the opponent the other of the two indices, the HP bars are
those of `me` (left) and of the opponent (right); the overlay is shown exactly
when `ko` is set or `me.hp <= 0` or `opponent.hp <= 0`; and its message is
"Time Up!" for the reason "timeout", else "You Lose" when `me.hp <= 0`, else
"You Win!" when `opponent.hp <= 0`, else "KO!". -/
theorem ko_overlay_outcome (canvasWidth canvasHeight : ℕ) (g : GameSnapshot)
    (prev : Option GameSnapshot) (lastUpdate now : ℚ) (slot : Option ℤ) :
    ((loop canvasWidth canvasHeight
        { latestGame := some g, prevState := prev, lastUpdate := lastUpdate
          latestSlot := slot } now).overlay
      = if g.ko = true ∨ HpAtMostZero (g.players[if slot = some 2 then 1 else 0]?) ∨
            HpAtMostZero (g.players[if slot = some 2 then 0 else 1]?) then
          some (if g.koReason = "timeout" then "Time Up!"
                else if HpAtMostZero (g.players[if slot = some 2 then 1 else 0]?) then "You Lose"
                else if HpAtMostZero (g.players[if slot = some 2 then 0 else 1]?) then "You Win!"
                else "KO!")
        else none) ∧
    ((loop canvasWidth canvasHeight
        { latestGame := some g, prevState := prev, lastUpdate := lastUpdate
          latestSlot := slot } now).hpBars
      = ((g.players[if slot = some 2 then 1 else 0]?).toList.map fun m =>
            { x := 40, y := 40, label := "Player HP", hp := m.hp }) ++
        ((g.players[if slot = some 2 then 0 else 1]?).toList.map fun e =>
            { x := (canvasWidth : ℚ) - 40 - 240, y := 40, label := "Enemy HP", hp := e.hp })) ∧
    (∀ (canvasWidth2 canvasHeight2 : ℕ) (prev2 : Option GameSnapshot) (lastUpdate2 now2 : ℚ),
      (loop canvasWidth2 canvasHeight2
          { latestGame := some g, prevState := prev2, lastUpdate := lastUpdate2
            latestSlot := slot } now2).overlay
        = (loop canvasWidth canvasHeight
            { latestGame := some g, prevState := prev, lastUpdate := lastUpdate
              latestSlot := slot } now).overlay) := by
  refine ⟨?_, ?_, fun _ _ _ _ _ => rfl⟩
  · exact koOverlay_some g _ _
  · show drawHPBars _ (g.players[myIndex slot]?) (g.players[enemyIndex slot]?) = _
    unfold drawHPBars myIndex enemyIndex
    cases g.players[if slot = some 2 then 1 else 0]? <;>
      cases g.players[if slot = some 2 then 0 else 1]? <;> rfl

/-! ## Interpolation or fallback (C11) -/

theorem drawPlayers_eq_interpolated (cx gy dt : ℚ) (pg : GameSnapshot)
    (players : List NetPlayer) (hlen : players.length = pg.players.length) :
    drawPlayers cx gy dt (some pg) players = interpolatedSticks cx gy dt pg.players players := by
  apply List.ext_getElem?
  intro n
  by_cases hn : n < players.length
  · have hn2 : n < pg.players.length := hlen ▸ hn
    have hnew : players[n]? = some players[n] := List.getElem?_eq_getElem hn
    have hold : pg.players[n]? = some pg.players[n] := List.getElem?_eq_getElem hn2
    rw [drawPlayers_interpolated cx gy dt pg players hlen n _ _ hold hnew]
    unfold interpolatedSticks
    rw [List.getElem?_zipWith, hold, hnew]
  · have h1 : (drawPlayers cx gy dt (some pg) players).length ≤ n := by
      rw [drawPlayers_length]; omega
    have h2 : (interpolatedSticks cx gy dt pg.players players).length ≤ n := by
      unfold interpolatedSticks
      rw [List.length_zipWith]; omega
    rw [List.getElem?_eq_none h1, List.getElem?_eq_none h2]

theorem drawPlayers_fallback (cx gy dt : ℚ) (prev : Option GameSnapshot)
    (players : List NetPlayer)
    (h : prev = none ∨ ∃ pg, prev = some pg ∧ pg.players.length ≠ players.length) :
    drawPlayers cx gy dt prev players = drawRaw cx gy players := by
  rcases h with h | ⟨pg, h, hne⟩
  · subst h; rfl
  · subst h
    unfold drawPlayers
    simp only
    rw [dif_neg (fun e => hne e.symm)]

theorem loop_sticks (canvasWidth canvasHeight : ℕ) (refs : NetRefs) (now : ℚ)
    (g : GameSnapshot) (hg : refs.latestGame = some g) :
    (loop canvasWidth canvasHeight refs now).sticks
      = drawPlayers ((canvasWidth : ℚ) / 2) (jsFloor ((canvasHeight : ℚ) * 0.8))
          (interpolationFactor now refs.lastUpdate) refs.prevState g.players := by
  unfold loop
  simp only [hg]

/-- C11: each arrival moves the old current snapshot to previous and stores
the new one with its arrival time.  A frame draws every player of the current
snapshot at its raw position `(cx + x, gy + y)` whenever the previous snapshot
is absent or has a different player count.  After arrivals with 2 and 2
players the frame is the interpolated one; after 2 and 1 it is the raw one, and
after a further 1-player arrival it is interpolated again. -/
theorem fallback_or_interpolation (canvasWidth canvasHeight : ℕ) (refs : NetRefs) (now : ℚ) :
    (∀ (g : GameSnapshot) (t : ℚ),
      (onSnapshot refs g t).prevState = refs.latestGame ∧
      (onSnapshot refs g t).latestGame = some g ∧
      (onSnapshot refs g t).lastUpdate = t) ∧
    (∀ g : GameSnapshot, refs.latestGame = some g →
      (refs.prevState = none ∨
        ∃ pg, refs.prevState = some pg ∧ pg.players.length ≠ g.players.length) →
      (loop canvasWidth canvasHeight refs now).sticks
        = g.players.map fun p =>
            { px := (canvasWidth : ℚ) / 2 + p.x
              py := jsFloor ((canvasHeight : ℚ) * 0.8) + p.y
              facing := p.facing, action := p.action, name := p.name }) ∧
    (∀ (s1 s2 : GameSnapshot) (t1 t2 : ℚ),
      s1.players.length = 2 → s2.players.length = 2 →
      (loop canvasWidth canvasHeight (deliver refs [(s1, t1), (s2, t2)]) now).sticks
        = interpolatedSticks ((canvasWidth : ℚ) / 2) (jsFloor ((canvasHeight : ℚ) * 0.8))
            (interpolationFactor now t2) s1.players s2.players) ∧
    (∀ (s1 s2 s3 : GameSnapshot) (t1 t2 t3 : ℚ),
      s1.players.length = 2 → s2.players.length = 1 → s3.players.length = 1 →
      (loop canvasWidth canvasHeight (deliver refs [(s1, t1), (s2, t2)]) now).sticks
        = (s2.players.map fun p =>
            { px := (canvasWidth : ℚ) / 2 + p.x
              py := jsFloor ((canvasHeight : ℚ) * 0.8) + p.y
              facing := p.facing, action := p.action, name := p.name }) ∧
      (loop canvasWidth canvasHeight
          (deliver refs [(s1, t1), (s2, t2), (s3, t3)]) now).sticks
        = interpolatedSticks ((canvasWidth : ℚ) / 2) (jsFloor ((canvasHeight : ℚ) * 0.8))
            (interpolationFactor now t3) s2.players s3.players) := by
  refine ⟨fun g t => ⟨rfl, rfl, rfl⟩, fun g hg h => ?_, fun s1 s2 t1 t2 h1 h2 => ?_,
    fun s1 s2 s3 t1 t2 t3 h1 h2 h3 => ⟨?_, ?_⟩⟩
  · rw [loop_sticks _ _ _ _ g hg, drawPlayers_fallback _ _ _ _ _ h]; rfl
  · rw [loop_sticks _ _ _ _ s2 rfl]
    exact drawPlayers_eq_interpolated _ _ _ s1 s2.players (by rw [h1, h2])
  · rw [loop_sticks _ _ _ _ s2 rfl]
    exact drawPlayers_fallback ((canvasWidth : ℚ) / 2) (jsFloor ((canvasHeight : ℚ) * 0.8))
      (interpolationFactor now t2) (some s1) s2.players
      (Or.inr ⟨s1, rfl, by rw [h1, h2]; decide⟩)
  · rw [loop_sticks _ _ _ _ s3 rfl]
    exact drawPlayers_eq_interpolated _ _ _ s2 s3.players (by rw [h2, h3])

/-- C11 at concrete arrivals on an 800 x 600 canvas, starting from the refs as
they are initialised: two 2-player snapshots give the interpolated frame; a
2-player then a 1-player snapshot give the raw frame. -/
theorem fallback_or_interpolation_witness :
    (loop 800 600
        (deliver
          { latestGame := some (sampleSnapshot []), prevState := none, lastUpdate := 0
            latestSlot := some 1 }
          [(sampleSnapshot (samplePlayers 0 100 100 100), 1000),
           (sampleSnapshot (samplePlayers 10 100 100 100), 1050)]) 1075).sticks
      = interpolatedSticks ((800 : ℕ) / 2 : ℚ) (jsFloor (((600 : ℕ) : ℚ) * 0.8))
          (interpolationFactor 1075 1050) (samplePlayers 0 100 100 100)
          (samplePlayers 10 100 100 100) ∧
    (loop 800 600
        (deliver
          { latestGame := some (sampleSnapshot []), prevState := none, lastUpdate := 0
            latestSlot := some 1 }
          [(sampleSnapshot (samplePlayers 0 100 100 100), 1000),
           (sampleSnapshot ((samplePlayers 10 100 100 100).take 1), 1050)]) 1075).sticks
      = (((samplePlayers 10 100 100 100).take 1).map fun p =>
          { px := ((800 : ℕ) : ℚ) / 2 + p.x
            py := jsFloor (((600 : ℕ) : ℚ) * 0.8) + p.y
            facing := p.facing, action := p.action, name := p.name }) :=
  ⟨(fallback_or_interpolation 800 600 _ 1075).2.2.1
      (sampleSnapshot (samplePlayers 0 100 100 100))
      (sampleSnapshot (samplePlayers 10 100 100 100)) 1000 1050 rfl rfl,
    ((fallback_or_interpolation 800 600 _ 1075).2.2.2
      (sampleSnapshot (samplePlayers 0 100 100 100))
      (sampleSnapshot ((samplePlayers 10 100 100 100).take 1))
      (sampleSnapshot ((samplePlayers 10 100 100 100).take 1)) 1000 1050 1100
      rfl rfl rfl).1⟩

/-! ## The hit flag after a miss (C13) -/

theorem hitCondition_iff_distance (M : JSMath) (a : Entity) (ax ay dx dy : ℚ)
    (hact : a.action = Action.light ∨ a.action = Action.heavy) (hflag : a._didHit = false) :
    HitCondition M a ax ay dx dy ↔ fistDistance M a ax ay dx dy ≤ 20 :=
  ⟨fun h => h.2.2, fun h => ⟨hact, hflag, h⟩⟩

theorem sample_out_of_reach :
    ¬ fistDistance sampleMath (standing 100 1 Action.light 10) 100 0 160 0 ≤ 20 := by
  norm_num [fistDistance, sampleMath, standing]
  have h : isqrt (Int.toNat 1190960826) = 34510 := by decide
  rw [h]; norm_num

/-- C13 as stated fails: a light attack from `x = 100` on a defender at
`x = 160` misses (distance about 34.5), and after the call the flag is still
clear. -/
theorem handleHit_miss_leaves_flag_clear :
    (standing 100 1 Action.light 10).action = Action.light ∧
    (standing 100 1 Action.light 10)._didHit = false ∧
    (handleHit sampleMath (standing 100 1 Action.light 10) 100 0
        (standing 160 (-1) Action.idle 0) 160 0).1._didHit = false := by
  refine ⟨rfl, rfl, ?_⟩
  rw [handleHit_of_not_cond sampleMath _ _ _ _ _ _ (fun h => sample_out_of_reach h.2.2)]
  rfl

/-- C13 amended: for a call of `handleHit` with the attacker in a light or
heavy action and the flag clear, the flag is set after the call exactly when
the distance test succeeded.  After a hit no later call of the same activation
changes a defender; after a miss both entities are unchanged, the flag stays
clear, and a later call of the same activation whose distance test succeeds
still registers its hit. -/
theorem flag_set_iff_hit (M : JSMath) (attacker : Entity) (attackerX attackerY : ℚ)
    (defender : Entity) (defenderX defenderY : ℚ)
    (hact : attacker.action = Action.light ∨ attacker.action = Action.heavy)
    (hflag : attacker._didHit = false) :
    ((handleHit M attacker attackerX attackerY defender defenderX defenderY).1._didHit = true
      ↔ fistDistance M attacker attackerX attackerY defenderX defenderY ≤ 20) ∧
    (fistDistance M attacker attackerX attackerY defenderX defenderY ≤ 20 →
      ∀ (ax2 ay2 : ℚ) (d2 : Entity) (dx2 dy2 : ℚ),
        handleHit M (handleHit M attacker attackerX attackerY defender defenderX defenderY).1
            ax2 ay2 d2 dx2 dy2
          = ((handleHit M attacker attackerX attackerY defender defenderX defenderY).1, d2)) ∧
    (¬ fistDistance M attacker attackerX attackerY defenderX defenderY ≤ 20 →
      handleHit M attacker attackerX attackerY defender defenderX defenderY
          = (attacker, defender) ∧
      ∀ (ax2 ay2 : ℚ) (d2 : Entity) (dx2 dy2 : ℚ),
        fistDistance M attacker ax2 ay2 dx2 dy2 ≤ 20 →
        handleHit M (handleHit M attacker attackerX attackerY defender defenderX defenderY).1
            ax2 ay2 d2 dx2 dy2
          = applyHit attacker ax2 d2 dx2) := by
  have hiff := hitCondition_iff_distance M attacker attackerX attackerY defenderX defenderY
    hact hflag
  refine ⟨?_, fun hd ax2 ay2 d2 dx2 dy2 => ?_, fun hd => ?_⟩
  · rw [handleHit_fst_didHit, hflag, ← hiff]
    simp
  · apply handleHit_flag_set
    rw [handleHit_fst_didHit, decide_eq_true (hiff.2 hd), Bool.or_true]
  · have hmiss := handleHit_of_not_cond M attacker attackerX attackerY defender defenderX
      defenderY (fun h => hd (hiff.1 h))
    refine ⟨hmiss, fun ax2 ay2 d2 dx2 dy2 hd2 => ?_⟩
    rw [hmiss]
    exact handleHit_of_cond M attacker ax2 ay2 d2 dx2 dy2
      ((hitCondition_iff_distance M attacker ax2 ay2 dx2 dy2 hact hflag).2 hd2)

/-- C13 amended, at concrete inputs: the light attack from `x = 100` misses a
defender at `x = 160` and is returned unchanged, flag clear. -/
theorem flag_set_iff_hit_witness :
    handleHit sampleMath (standing 100 1 Action.light 10) 100 0
        (standing 160 (-1) Action.idle 0) 160 0
      = (standing 100 1 Action.light 10, standing 160 (-1) Action.idle 0) :=
  ((flag_set_iff_hit sampleMath (standing 100 1 Action.light 10) 100 0
      (standing 160 (-1) Action.idle 0) 160 0 (Or.inl rfl) rfl).2.2 sample_out_of_reach).1

/-! ## Friction (C12) -/

theorem playerMovement_player_vx_free (w : World) (hl : isLocked w.player.action = false)
    (hL : w.keys.ArrowLeft = false) (hR : w.keys.ArrowRight = false) :
    (playerMovement w).player.vx = w.player.vx * 0.8 := by
  simp only [playerMovement, hl, hL, hR]
  split_ifs <;> simp_all

theorem playerMovement_player_vx_locked (w : World) (hl : isLocked w.player.action = true) :
    (playerMovement w).player.vx = w.player.vx * 0.9 := by
  simp only [playerMovement, hl]
  split_ifs <;> simp_all

theorem playerMovement_player_x (w : World) : (playerMovement w).player.x = w.player.x := by
  simp only [playerMovement]
  split_ifs <;> rfl

theorem groundCollision_xs (w : World) :
    (groundCollision w).player.x = w.player.x ∧ (groundCollision w).player.vx = w.player.vx ∧
    (groundCollision w).enemy.x = w.enemy.x ∧ (groundCollision w).enemy.vx = w.enemy.vx := by
  simp only [groundCollision]
  split_ifs <;> exact ⟨rfl, rfl, rfl, rfl⟩

theorem actionTimers_xs (w : World) :
    (actionTimers w).player.x = w.player.x ∧ (actionTimers w).player.vx = w.player.vx ∧
    (actionTimers w).enemy.x = w.enemy.x ∧ (actionTimers w).enemy.vx = w.enemy.vx := by
  simp only [actionTimers]
  split_ifs <;> exact ⟨rfl, rfl, rfl, rfl⟩

theorem beforeHits_player_vx (w : World) :
    (beforeHits w).player.vx = (playerMovement w).player.vx := by
  show (groundCollision (physics (enemyAI (playerMovement w)))).player.vx = _
  rw [(groundCollision_xs _).2.1]; rfl

theorem beforeHits_enemy_vx (w : World) : (beforeHits w).enemy.vx = w.enemy.vx := by
  show (groundCollision (physics (enemyAI (playerMovement w)))).enemy.vx = _
  rw [(groundCollision_xs _).2.2.2]; rfl

theorem beforeHits_player_x (w : World) :
    (beforeHits w).player.x
      = clampX 50 (w.canvasWidth - 50) (w.player.x + (playerMovement w).player.vx) := by
  show clampX 50 (w.canvasWidth - 50)
    (groundCollision (physics (enemyAI (playerMovement w)))).player.x = _
  rw [(groundCollision_xs _).1]
  show clampX 50 (w.canvasWidth - 50)
    ((playerMovement w).player.x + (playerMovement w).player.vx) = _
  rw [playerMovement_player_x]

theorem beforeHits_enemy_x (w : World) :
    (beforeHits w).enemy.x = clampX 50 (w.canvasWidth - 50) (w.enemy.x + w.enemy.vx) := by
  show clampX 50 (w.canvasWidth - 50)
    (groundCollision (physics (enemyAI (playerMovement w)))).enemy.x = _
  rw [(groundCollision_xs _).2.2.1]; rfl

theorem update_xs (M : JSMath) (w : World) (hg : w.gameOver = false) :
    (update M w).player.x = (beforeHits w).player.x ∧
      (update M w).enemy.x = (beforeHits w).enemy.x := by
  rw [update_player_of_running M w hg, update_enemy_of_running M w hg, (actionTimers_xs _).1,
    (actionTimers_xs _).2.2.1, enemyHit_player_x, enemyHit_enemy_x, playerHit_player_x,
    playerHit_enemy_x]
  exact ⟨rfl, rfl⟩

/-- C12 on the code: in a tick from `glide` (round not over, enemy idle on the
ground with `vx = -2`, no key held) the enemy's velocity is not multiplied by
any friction factor; its position is integrated with the full `vx`, from 125
to 123 rather than to `125 + (-2) * 0.8`, and the velocity it is integrated
with is still `-2`. -/
theorem enemy_velocity_not_decayed :
    glide.gameOver = false ∧ glide.enemy.x = 125 ∧ glide.enemy.vx = -2 ∧
    (beforeHits glide).enemy.vx = -2 ∧
    (update sampleMath glide).enemy.x = 123 ∧
    (update sampleMath glide).enemy.x ≠ glide.enemy.x + glide.enemy.vx * 0.8 := by
  have hx : (update sampleMath glide).enemy.x = 123 := by
    rw [(update_xs sampleMath glide rfl).2, beforeHits_enemy_x]
    norm_num [glide, duel, standing, clampX]
  refine ⟨rfl, rfl, rfl, ?_, hx, ?_⟩
  · rw [beforeHits_enemy_vx]; rfl
  · rw [hx]; norm_num [glide, duel, standing]

/-- What a tick with the round not over does to the horizontal motion: the
player's velocity is multiplied by 0.8 when its action is not locked and
neither ArrowLeft nor ArrowRight is held, and by 0.9 when its action is light,
heavy or block (whatever keys are held), before its position is integrated as
`x += vx` (and then clamped to the stage); the enemy's position is integrated
with its velocity as it was. -/
theorem friction_applies_to_player (M : JSMath) (w : World) (hg : w.gameOver = false) :
    (isLocked w.player.action = false → w.keys.ArrowLeft = false →
      w.keys.ArrowRight = false →
        (beforeHits w).player.vx = w.player.vx * 0.8 ∧
        (update M w).player.x
          = clampX 50 (w.canvasWidth - 50) (w.player.x + w.player.vx * 0.8)) ∧
    (isLocked w.player.action = true →
        (beforeHits w).player.vx = w.player.vx * 0.9 ∧
        (update M w).player.x
          = clampX 50 (w.canvasWidth - 50) (w.player.x + w.player.vx * 0.9)) ∧
    ((beforeHits w).enemy.vx = w.enemy.vx ∧
      (update M w).enemy.x = clampX 50 (w.canvasWidth - 50) (w.enemy.x + w.enemy.vx)) := by
  refine ⟨fun hl hL hR => ?_, fun hl => ?_, ?_⟩
  · rw [(update_xs M w hg).1, beforeHits_player_x, beforeHits_player_vx,
      playerMovement_player_vx_free w hl hL hR]
    exact ⟨rfl, rfl⟩
  · rw [(update_xs M w hg).1, beforeHits_player_x, beforeHits_player_vx,
      playerMovement_player_vx_locked w hl]
    exact ⟨rfl, rfl⟩
  · rw [(update_xs M w hg).2, beforeHits_enemy_x, beforeHits_enemy_vx]
    exact ⟨rfl, rfl⟩

/-- The player of `duel`, in a light attack and moving at `vx = 5`, is slowed
to `4.5` in the tick. -/
theorem friction_applies_to_player_witness :
    (beforeHits { duel with player := { standing 100 1 Action.light 10 with vx := 5 } }).player.vx
      = 9 / 2 := by
  rw [((friction_applies_to_player sampleMath
    { duel with player := { standing 100 1 Action.light 10 with vx := 5 } } rfl).2.1 rfl).1]
  norm_num [standing]

/-! ## Timers, locked actions and the idle opponent (C14, C15) -/

theorem playerMovement_player_isLocked (w : World) :
    isLocked (playerMovement w).player.action = isLocked w.player.action := by
  cases hl : isLocked w.player.action
  · simp only [playerMovement, hl]
    split_ifs <;> simp_all [isLocked]
  · rw [playerMovement_player_action_locked w hl, hl]

theorem groundCollision_player_isLocked (w : World) :
    isLocked (groundCollision w).player.action = isLocked w.player.action := by
  cases hl : isLocked w.player.action
  · simp only [groundCollision, hl]
    split_ifs <;> simp_all [isLocked]
  · rw [groundCollision_player_action_locked w hl, hl]

theorem beforeHits_player_isLocked (w : World) :
    isLocked (beforeHits w).player.action = isLocked w.player.action := by
  show isLocked (groundCollision (physics (enemyAI (playerMovement w)))).player.action = _
  rw [groundCollision_player_isLocked]
  exact playerMovement_player_isLocked w

theorem actionTimers_enemy_actionTimer (w : World) :
    (actionTimers w).enemy.actionTimer
      = if w.enemy.actionTimer > 0 then w.enemy.actionTimer - 1 else w.enemy.actionTimer := by
  simp only [actionTimers]
  split_ifs <;> rfl

theorem handleHit_not_attacking (M : JSMath) (a : Entity) (ax ay : ℚ) (d : Entity) (dx dy : ℚ)
    (h : isAttack a.action = false) : handleHit M a ax ay d dx dy = (a, d) :=
  handleHit_of_not_cond M a ax ay d dx dy
    (fun hc => by rw [(isAttack_iff _).2 hc.1] at h; exact absurd h (by decide))

theorem koCheck_gameOver (w : World) :
    (koCheck w).gameOver = true → w.gameOver = true ∨ w.player.hp ≤ 0 ∨ w.enemy.hp ≤ 0 := by
  unfold koCheck
  by_cases h : w.player.hp ≤ 0 ∨ w.enemy.hp ≤ 0
  · intro _; exact Or.inr h
  · rw [if_neg h]; intro hg; exact Or.inl hg

theorem update_roundInv (M : JSMath) (w : World) (h : RoundInv w) : RoundInv (update M w) := by
  obtain ⟨⟨ht0, ht18⟩, hlock, ⟨hea, het⟩, hhp, hover⟩ := h
  by_cases hg : w.gameOver = true
  · have e : update M w = w := by unfold update; rw [if_pos hg]
    rw [e]; exact ⟨⟨ht0, ht18⟩, hlock, ⟨hea, het⟩, hhp, hover⟩
  · have hg2 : w.gameOver = false := by simpa using hg
    -- the enemy entering the hit stage is idle with timer 0
    have hbe : (beforeHits w).enemy.action = Action.idle := by
      rcases beforeHits_enemy_action w with e | e
      · rw [e, hea]
      · exact e
    have hpe : (playerHit M (beforeHits w)).enemy.action = Action.idle := by
      rw [playerHit_enemy_action, hbe]
    -- so the second call of handleHit leaves the player alone
    have hnoHit : (enemyHit M (playerHit M (beforeHits w))).player
        = (playerHit M (beforeHits w)).player := by
      show (handleHit M _ _ _ _ _ _).2 = _
      rw [handleHit_not_attacking M _ _ _ _ _ _ (by rw [hpe]; rfl)]
    have hXt : (enemyHit M (playerHit M (beforeHits w))).player.actionTimer
        = w.player.actionTimer := by
      rw [enemyHit_player_actionTimer, playerHit_player_actionTimer,
        beforeHits_player_actionTimer]
    have hXa : (enemyHit M (playerHit M (beforeHits w))).player.action
        = (beforeHits w).player.action := by
      rw [enemyHit_player_action, playerHit_player_action]
    have hXl : isLocked (beforeHits w).player.action = true ↔ 0 < w.player.actionTimer := by
      rw [beforeHits_player_isLocked]; exact hlock
    have hXea : (enemyHit M (playerHit M (beforeHits w))).enemy.action = Action.idle := by
      rw [enemyHit_enemy_action, hpe]
    have hXet : (enemyHit M (playerHit M (beforeHits w))).enemy.actionTimer = 0 := by
      rw [enemyHit_enemy_actionTimer, playerHit_enemy_actionTimer,
        beforeHits_enemy_actionTimer, het]
    have hT : (update M w).player.actionTimer
        = if w.player.actionTimer > 0 then w.player.actionTimer - 1
          else w.player.actionTimer := by
      rw [update_player_of_running M w hg2, actionTimers_player_actionTimer, hXt]
    have hA : (update M w).player.action
        = if w.player.actionTimer > 0 ∧ w.player.actionTimer - 1 = 0 ∧
              (beforeHits w).player.action ≠ Action.jump then
            (if (enemyHit M (playerHit M (beforeHits w))).player.onGround &&
                ((enemyHit M (playerHit M (beforeHits w))).keys.ArrowLeft ||
                  (enemyHit M (playerHit M (beforeHits w))).keys.ArrowRight) then Action.run
             else Action.idle)
          else (beforeHits w).player.action := by
      rw [update_player_of_running M w hg2, actionTimers_player_action, hXt, hXa]
    refine ⟨?_, ?_, ⟨?_, ?_⟩, ?_, ?_⟩
    · rw [hT]; split_ifs <;> constructor <;> omega
    · rw [hT, hA]
      by_cases hpos : w.player.actionTimer > 0
      · have hl := hXl.2 hpos
        have hnj := isLocked_ne_jump _ hl
        by_cases h1 : w.player.actionTimer - 1 = 0
        · rw [if_pos ⟨hpos, h1, hnj⟩, if_pos hpos]
          constructor
          · intro hh; exfalso; revert hh; split_ifs <;> simp [isLocked]
          · intro hh; omega
        · rw [if_neg (fun c => h1 c.2.1), if_pos hpos]
          exact ⟨fun _ => by omega, fun _ => hl⟩
      · rw [if_neg (fun c => hpos c.1), if_neg hpos]
        exact hXl
    · rw [update_enemy_of_running M w hg2, actionTimers_enemy_action, hXea, hXet]
      simp
    · rw [update_enemy_of_running M w hg2, actionTimers_enemy_actionTimer, hXet]
      simp
    · rw [update_player_of_running M w hg2, actionTimers_player_hp, hnoHit,
        playerHit_player_hp, beforeHits_player_hp, hhp]
    · intro hover2
      have hk : (update M w).gameOver = true →
          w.gameOver = true ∨
            (actionTimers (enemyHit M (playerHit M (beforeHits w)))).player.hp ≤ 0 ∨
            (actionTimers (enemyHit M (playerHit M (beforeHits w)))).enemy.hp ≤ 0 := by
        unfold update
        rw [if_neg hg]
        exact koCheck_gameOver _
      rcases hk hover2 with c | c | c
      · exact absurd c hg
      · rw [actionTimers_player_hp, hnoHit, playerHit_player_hp, beforeHits_player_hp, hhp] at c
        norm_num at c
      · rw [update_enemy_of_running M w hg2]; exact c

theorem resetRound_roundInv (w : World) : RoundInv (resetRound w) := by
  refine ⟨⟨?_, ?_⟩, ?_, ⟨rfl, rfl⟩, rfl, ?_⟩
  · show (0 : ℤ) ≤ 0; norm_num
  · show (0 : ℤ) ≤ 18; norm_num
  · show isLocked Action.idle = true ↔ (0 : ℤ) < 0
    simp [isLocked]
  · intro h; exact absurd h (by simp [resetRound])

theorem initWorld_roundInv (innerWidth innerHeight : ℕ) :
    RoundInv (initWorld innerWidth innerHeight) := by
  refine ⟨⟨?_, ?_⟩, ?_, ⟨rfl, rfl⟩, rfl, ?_⟩
  · show (0 : ℤ) ≤ 0; norm_num
  · show (0 : ℤ) ≤ 18; norm_num
  · show isLocked Action.idle = true ↔ (0 : ℤ) < 0
    simp [isLocked]
  · intro h; exact absurd h (by simp [initWorld])

theorem onKeyDown_roundInv (w : World) (k : String) (h : RoundInv w) :
    RoundInv (onKeyDown w k) := by
  obtain ⟨⟨ht0, ht18⟩, hlock, ⟨hea, het⟩, hhp, hover⟩ := h
  unfold onKeyDown
  simp only
  split_ifs with h1 h2 h3 h4
  · exact resetRound_roundInv _
  · refine ⟨⟨?_, ?_⟩, ?_, ⟨hea, het⟩, hhp, hover⟩
    · show (0 : ℤ) ≤ 10; norm_num
    · show (10 : ℤ) ≤ 18; norm_num
    · show isLocked Action.light = true ↔ (0 : ℤ) < 10
      simp [isLocked]
  · refine ⟨⟨?_, ?_⟩, ?_, ⟨hea, het⟩, hhp, hover⟩
    · show (0 : ℤ) ≤ 18; norm_num
    · show (18 : ℤ) ≤ 18; norm_num
    · show isLocked Action.heavy = true ↔ (0 : ℤ) < 18
      simp [isLocked]
  · refine ⟨⟨?_, ?_⟩, ?_, ⟨hea, het⟩, hhp, hover⟩
    · show (0 : ℤ) ≤ 14; norm_num
    · show (14 : ℤ) ≤ 18; norm_num
    · show isLocked Action.block = true ↔ (0 : ℤ) < 14
      simp [isLocked]
  · exact ⟨⟨ht0, ht18⟩, hlock, ⟨hea, het⟩, hhp, hover⟩

theorem onKeyUp_roundInv (w : World) (k : String) (h : RoundInv w) :
    RoundInv (onKeyUp w k) := by
  obtain ⟨⟨ht0, ht18⟩, hlock, ⟨hea, het⟩, hhp, hover⟩ := h
  unfold onKeyUp
  simp only
  split_ifs with h1 h2
  · refine ⟨⟨?_, ?_⟩, ?_, ⟨hea, het⟩, hhp, hover⟩
    · show (0 : ℤ) ≤ 0; norm_num
    · show (0 : ℤ) ≤ 18; norm_num
    · show isLocked Action.run = true ↔ (0 : ℤ) < 0
      simp [isLocked]
  · refine ⟨⟨?_, ?_⟩, ?_, ⟨hea, het⟩, hhp, hover⟩
    · show (0 : ℤ) ≤ 0; norm_num
    · show (0 : ℤ) ≤ 18; norm_num
    · show isLocked Action.idle = true ↔ (0 : ℤ) < 0
      simp [isLocked]
  · exact ⟨⟨ht0, ht18⟩, hlock, ⟨hea, het⟩, hhp, hover⟩

theorem step_roundInv (M : JSMath) (w : World) (e : Event) (h : RoundInv w) :
    RoundInv (step M w e) := by
  cases e with
  | tick => exact update_roundInv M w h
  | keyDown k => exact onKeyDown_roundInv w k h
  | keyUp k => exact onKeyUp_roundInv w k h
  | reset => exact resetRound_roundInv w

theorem run_roundInv (M : JSMath) (es : List Event) :
    ∀ w : World, RoundInv w → RoundInv (run M w es) := by
  induction es with
  | nil => intro w h; exact h
  | cons e es ih => intro w h; exact ih (step M w e) (step_roundInv M w e h)

theorem reachable_roundInv (M : JSMath) (innerWidth innerHeight : ℕ) (w : World)
    (h : Reachable M innerWidth innerHeight w) : RoundInv w := by
  obtain ⟨es, rfl⟩ := h
  exact run_roundInv M es _ (initWorld_roundInv innerWidth innerHeight)

theorem enemyHit_player_of_roundInv (M : JSMath) (w : World) (h : RoundInv w) :
    (enemyHit M (playerHit M (beforeHits w))).player = (playerHit M (beforeHits w)).player := by
  have hbe : (beforeHits w).enemy.action = Action.idle := by
    rcases beforeHits_enemy_action w with e | e
    · rw [e, h.2.2.1.1]
    · exact e
  show (handleHit M _ _ _ _ _ _).2 = _
  rw [handleHit_not_attacking M _ _ _ _ _ _ (by rw [playerHit_enemy_action, hbe]; rfl)]

theorem koOverlayLocal_of_full_hp (w : World) (h : w.player.hp = 100) :
    koOverlayLocal w = if w.gameOver then some "You Win!" else none := by
  unfold koOverlayLocal
  have hn : ¬ (w.player.hp ≤ 0) := by rw [h]; norm_num
  simp only [hn, if_false]

/-- C14: in every state reachable from the initial state by ticks, key-down
and key-up events and `resetRound`, both action timers (integers in the model)
lie within 0 and 18, and the player's action is light, heavy or block exactly
when the player's timer is greater than 0. -/
theorem timers_bounded_and_lock_iff (M : JSMath) (innerWidth innerHeight : ℕ) (w : World)
    (h : Reachable M innerWidth innerHeight w) :
    (0 ≤ w.player.actionTimer ∧ w.player.actionTimer ≤ 18) ∧
    (0 ≤ w.enemy.actionTimer ∧ w.enemy.actionTimer ≤ 18) ∧
    ((w.player.action = Action.light ∨ w.player.action = Action.heavy ∨
        w.player.action = Action.block) ↔ 0 < w.player.actionTimer) := by
  obtain ⟨hb, hlock, ⟨_, het⟩, _, _⟩ := reachable_roundInv M innerWidth innerHeight w h
  refine ⟨hb, ⟨by rw [het], by rw [het]; norm_num⟩, ?_⟩
  rw [← isLocked_iff]; exact hlock

/-- C14 at a concrete execution: after the key z and one tick from the initial
state of an 800 x 600 window the player's timer is within bounds. -/
theorem timers_bounded_and_lock_iff_witness :
    0 ≤ (run sampleMath (initWorld 800 600)
          [Event.keyDown "z", Event.tick]).player.actionTimer ∧
    (run sampleMath (initWorld 800 600)
          [Event.keyDown "z", Event.tick]).player.actionTimer ≤ 18 :=
  (timers_bounded_and_lock_iff sampleMath 800 600 _
    ⟨[Event.keyDown "z", Event.tick], rfl⟩).1

/-- C15: in every reachable state the opponent is idle with timer 0; so
`handleHit` with the opponent as attacker returns both entities unchanged, the
opponent's call in a tick never changes the player, the player's hp is 100, a
round that is over has the opponent's hp at 0, and the local overlay never
reads "You Lose". -/
theorem opponent_never_attacks (M : JSMath) (innerWidth innerHeight : ℕ) (w : World)
    (h : Reachable M innerWidth innerHeight w) :
    (w.enemy.action = Action.idle ∧ w.enemy.actionTimer = 0) ∧
    (∀ (ax ay : ℚ) (d : Entity) (dx dy : ℚ),
      handleHit M w.enemy ax ay d dx dy = (w.enemy, d)) ∧
    ¬ EnemyLands M w ∧
    w.player.hp = 100 ∧
    (w.gameOver = true → w.enemy.hp = 0) ∧
    koOverlayLocal w ≠ some "You Lose" := by
  have hinv := reachable_roundInv M innerWidth innerHeight w h
  obtain ⟨_, _, ⟨hea, het⟩, hhp, hover⟩ := hinv
  have hbound : (0 ≤ w.player.hp ∧ w.player.hp ≤ 100) ∧ (0 ≤ w.enemy.hp ∧ w.enemy.hp ≤ 100) := by
    obtain ⟨es, rfl⟩ := h
    exact run_hp M es _ (initWorld_hp innerWidth innerHeight)
  refine ⟨⟨hea, het⟩, fun ax ay d dx dy => ?_, fun hl => ?_, hhp,
    fun hg => le_antisymm (hover hg) hbound.2.1, ?_⟩
  · exact handleHit_not_attacking M _ _ _ _ _ _ (by rw [hea]; rfl)
  · exact hl.2 (enemyHit_player_of_roundInv M w (reachable_roundInv M innerWidth innerHeight w h))
  · rw [koOverlayLocal_of_full_hp w hhp]
    split
    · intro c; exact absurd (Option.some.inj c) (by decide)
    · intro c; exact absurd c (by simp)

/-- C15 at a concrete execution: after the key z and two ticks from the
initial state of an 800 x 600 window the player's hp is 100. -/
theorem opponent_never_attacks_witness :
    (run sampleMath (initWorld 800 600)
        [Event.keyDown "z", Event.tick, Event.tick]).player.hp = 100 :=
  (opponent_never_attacks sampleMath 800 600 _
    ⟨[Event.keyDown "z", Event.tick, Event.tick], rfl⟩).2.2.2.1

end StickmanFight
